import Mathlib

/-!
# Verification of the `cargador_gel_litio` charge-controller core

Shallow embedding of the ESP32 solar/DC charge controller.  The repository
contains several near-duplicate sketch variants; the embedding below follows
the two variants the specification designates:

* `Charger`  — the most evolved main sketch (the one with the multi-sample
  over-voltage / over-temperature confirmation counters and the non-blocking
  Error handling).  C floats are modelled as `ℚ`, C `int` as `ℤ`,
  `unsigned long` millisecond clocks as `ℕ` (time is monotone, so the
  truncated `ℕ` subtraction agrees with the wrap-around C subtraction).
  Serial prints, the diagnostic note string and the LED PWM hardware write
  are write-only outputs and are not part of the state; key/value
  persistence is modelled as a journal of writes.
* `Toggle8h` — the `TOGGLE_LOAD` handler of the variant with the
  8-hour safety clamp (`validateLoadOffDuration`).
-/

namespace Charger

/-- The `ChargeState` enum from `config.h`. -/
inductive ChargeState where
  | BULK_CHARGE
  | ABSORPTION_CHARGE
  | FLOAT_CHARGE
  | ERROR
deriving DecidableEq, Repr

/-- A value written to the `Preferences` key/value store
(`putFloat` / `putBool` / `putULong`). -/
inductive PrefVal where
  | f (x : ℚ)
  | b (x : Bool)
  | n (x : ℕ)
deriving DecidableEq, Repr

/-- `#define LVD 12.0` (config.h). -/
def LVD : ℚ := 12.0
/-- `#define LVR 12.5` (config.h). -/
def LVR : ℚ := 12.5
/-- `const float maxBatteryVoltageAllowed = 15.0;` -/
def maxBatteryVoltageAllowed : ℚ := 15.0
/-- `#define TEMP_THRESHOLD_SHUTDOWN 90` (config.h). -/
def TEMP_THRESHOLD_SHUTDOWN : ℚ := 90
/-- `const float chargedBatteryRestVoltage = 12.88;` -/
def chargedBatteryRestVoltage : ℚ := 12.88
/-- `const float maxAbsorptionHours = 1.0;` -/
def maxAbsorptionHours : ℚ := 1.0
/-- `const unsigned long SAVE_INTERVAL = 300000;` -/
def SAVE_INTERVAL : ℕ := 300000

/-- The module-scope mutable variables of the main sketch, together with the
function-`static` locals of `loop` and `updateChargeState` (which survive
across iterations exactly like globals). -/
structure St where
  useFuenteDC : Bool
  fuenteDC_Amps : ℚ
  maxBulkHours : ℚ
  maxAllowedCurrent : ℚ
  bulkVoltage : ℚ
  absorptionVoltage : ℚ
  floatVoltage : ℚ
  currentBulkHours : ℚ
  absorptionCurrentThreshold_mA : ℚ
  currentLimitIntoFloatStage : ℚ
  factorDivider : ℤ
  accumulatedAh : ℚ
  lastUpdateTime : ℕ
  lastSaveTime : ℕ
  calculatedAbsorptionHours : ℚ
  absorptionStartTime : ℕ
  bulkStartTime : ℕ
  currentState : ChargeState
  currentPWM : ℤ
  panelToBatteryCurrent : ℚ
  batteryToLoadCurrent : ℚ
  batteryCapacity : ℚ
  thresholdPercentage : ℚ
  isLithium : Bool
  temperature : ℚ
  loadOffStartTime : ℕ
  loadOffDuration : ℕ
  temporaryLoadOff : Bool
  /-- latched level of `LOAD_CONTROL_PIN` (`true` = HIGH = load enabled). -/
  loadPin : Bool
  /-- latched level of `LED_SOLAR`. -/
  ledSolar : Bool
  /-- `static bool lowCurrentDetected` in `loop`. -/
  lowCurrentDetected : Bool
  /-- `static unsigned long lowCurrentStart` in `loop`. -/
  lowCurrentStart : ℕ
  /-- `static bool belowThreshold` in `loop` (re-entry check). -/
  belowThreshold : Bool
  /-- `static unsigned long lowVoltageStart` in `loop` (re-entry check). -/
  lowVoltageStart : ℕ
  /-- `static int voltageErrorCount` in `updateChargeState`. -/
  voltageErrorCount : ℕ
  /-- `static unsigned long lastVoltageCheck` in `updateChargeState`. -/
  lastVoltageCheck : ℕ
  /-- `static int tempErrorCount` in `loop`. -/
  tempErrorCount : ℕ
  /-- `static unsigned long lastTempCheck` in `loop`. -/
  lastTempCheck : ℕ
  /-- `static bool errorInitialized` in the `case ERROR:` block. -/
  errorInitDone : Bool
  /-- `static unsigned long lastErrorCheck` in the `case ERROR:` block. -/
  lastErrorCheck : ℕ
  /-- `static unsigned long lastLedToggle` in the `case ERROR:` block. -/
  lastLedToggle : ℕ
  /-- `static bool ledErrorState` in the `case ERROR:` block. -/
  ledErrorState : Bool
  /-- journal of `preferences.put…` writes (namespace `charger`). -/
  prefs : List (String × PrefVal)

/-- Arduino `constrain(amt, low, high)`. -/
def constrain (amt low high : ℤ) : ℤ :=
  if amt < low then low else if amt > high then high else amt

/-- `setPWM`: the duty value actually applied to the channel after the
`constrain` (the hardware register receives `255 -` this value; the function
does not modify the global `currentPWM`). -/
def setPWM (pwmValue : ℤ) : ℤ :=
  constrain pwmValue 0 255

/-- `adjustPWM(int step)`: `currentPWM += step; currentPWM = constrain(…);
setPWM(currentPWM);` (the trailing `setPWM` only touches the hardware). -/
def adjustPWM (step : ℤ) (s : St) : St :=
  { s with currentPWM := constrain (s.currentPWM + step) 0 255 }

/-- `fLerp`: guarded linear interpolation. -/
def fLerp (x x0 x1 y0 y1 : ℚ) : ℚ :=
  if x1 = x0 then y0 else y0 + (x - x0) * (y1 - y0) / (x1 - x0)

/-- `getSOCFromVoltage` of the evolved sketch (piecewise-linear LUT). -/
def getSOCFromVoltage (voltage : ℚ) : ℚ :=
  if voltage ≥ 14.4 then 100.0
  else if voltage ≥ 13.8 then fLerp voltage 13.8 14.4 95.0 100.0
  else if voltage ≥ 13.2 then fLerp voltage 13.2 13.8 80.0 95.0
  else if voltage ≥ 12.8 then fLerp voltage 12.8 13.2 60.0 80.0
  else if voltage ≥ 12.4 then fLerp voltage 12.4 12.8 40.0 60.0
  else if voltage ≥ 12.0 then fLerp voltage 12.0 12.4 20.0 40.0
  else if voltage ≥ 11.8 then fLerp voltage 11.8 12.0 10.0 20.0
  else if voltage ≥ 11.5 then fLerp voltage 11.5 11.8 5.0 10.0
  else 0.0

/-- `saveChargingState()`: flush `accumulatedAh` and `bulkStartTime` to the
store at most every `SAVE_INTERVAL` ms. -/
def saveChargingState (now : ℕ) (s : St) : St :=
  if now - s.lastSaveTime > SAVE_INTERVAL then
    { s with
      prefs := s.prefs ++ [("accumulatedAh", .f s.accumulatedAh),
                           ("bulkStartTime", .n s.bulkStartTime)]
      lastSaveTime := now }
  else s

/-- `updateAhTracking()` of the evolved sketch: guarded coulomb-counter
update (first-call / long-gap / tiny-gap skips, 1C-rate cap, clamp to
`[0, 1.1 × batteryCapacity]`).  Called at the top of `loop`, so it uses the
currents sampled on the previous iteration. -/
def updateAhTracking (now : ℕ) (s : St) : St :=
  if s.lastUpdateTime = 0 then
    { s with lastUpdateTime := now }
  else
    let deltaHours : ℚ := ((now - s.lastUpdateTime : ℕ) : ℚ) / 3600000.0
    if deltaHours > 1.0 then
      { s with lastUpdateTime := now }
    else if deltaHours < 0.0001 then
      s
    else
      let chargeCurrent := s.panelToBatteryCurrent / 1000.0
      let dischargeCurrent := s.batteryToLoadCurrent / 1000.0
      let chargeCurrent := if chargeCurrent < 0 then 0 else chargeCurrent
      let dischargeCurrent := if dischargeCurrent < 0 then 0 else dischargeCurrent
      let ahChange := (chargeCurrent - dischargeCurrent) * deltaHours
      let maxChangePerSecond := s.batteryCapacity / 3600.0
      let maxChange := maxChangePerSecond * deltaHours * 3600.0
      let ahChange := if |ahChange| > maxChange then
          (if ahChange > 0 then maxChange else -maxChange) else ahChange
      let acc := s.accumulatedAh + ahChange
      let acc := if acc < 0 then 0 else acc
      let acc := if acc > s.batteryCapacity * 1.1 then s.batteryCapacity * 1.1 else acc
      { s with accumulatedAh := acc, lastUpdateTime := now }

/-- `resetChargingCycle()` of the evolved sketch.  The function re-reads the
battery sensor; the embedding passes it the tick's sampled battery voltage. -/
def resetChargingCycle (now : ℕ) (batteryVoltage : ℚ) (s : St) : St :=
  let currentSOC := (s.accumulatedAh / s.batteryCapacity) * 100.0
  let voltageBasedSOC := getSOCFromVoltage batteryVoltage
  let s :=
    if s.currentState = ChargeState.FLOAT_CHARGE then
      if currentSOC < voltageBasedSOC - 10.0 then
        let adjustedSOC := (currentSOC * 0.7) + (voltageBasedSOC * 0.3)
        { s with accumulatedAh := (adjustedSOC / 100.0) * s.batteryCapacity }
      else if currentSOC < 85.0 then
        { s with accumulatedAh := s.batteryCapacity * 0.85 }
      else s
    else
      if voltageBasedSOC > 80.0 then
        let bestSOC := max currentSOC voltageBasedSOC
        { s with accumulatedAh := (bestSOC / 100.0) * s.batteryCapacity }
      else if currentSOC > voltageBasedSOC + 20.0 then
        let adjustedSOC := voltageBasedSOC + 10.0
        { s with accumulatedAh := (adjustedSOC / 100.0) * s.batteryCapacity }
      else s
  let s := if s.accumulatedAh < 0 then { s with accumulatedAh := 0 } else s
  let s := if s.accumulatedAh > s.batteryCapacity * 1.1 then
      { s with accumulatedAh := s.batteryCapacity * 1.1 } else s
  saveChargingState now s

/-- `bulkControl`. -/
def bulkControl (batteryVoltage chargeCurrent bulkVoltage : ℚ) (s : St) : St :=
  if chargeCurrent > s.maxAllowedCurrent then adjustPWM (-5) s
  else if batteryVoltage < bulkVoltage then adjustPWM 1 s
  else adjustPWM (-1) s

/-- `absorptionControl`. -/
def absorptionControl (batteryVoltage chargeCurrent absorptionVoltage : ℚ) (s : St) : St :=
  if batteryVoltage > absorptionVoltage then adjustPWM (-1) s
  else if batteryVoltage < absorptionVoltage then
    (if chargeCurrent < s.maxAllowedCurrent then adjustPWM 1 s else adjustPWM (-2) s)
  else s

/-- `absorptionControlToLitium`. -/
def absorptionControlToLitium (chargeCurrent batteryToLoadCurrent : ℚ) (s : St) : St :=
  if chargeCurrent > batteryToLoadCurrent then adjustPWM (-3) s else adjustPWM 1 s

/-- `floatControl`. -/
def floatControl (batteryVoltage floatVoltage : ℚ) (s : St) : St :=
  if batteryVoltage > floatVoltage then adjustPWM (-1) s
  else if batteryVoltage < floatVoltage then adjustPWM 1 s
  else s

/-- The over-voltage confirmation counter at the top of `updateChargeState`:
every ≥ 1000 ms, a reading `≥ maxBatteryVoltageAllowed` increments the
counter (at 5 the state becomes `ERROR` and the counter resets); a reading
below the threshold resets the counter. -/
def voltageSafetyCheck (now : ℕ) (batteryVoltage : ℚ) (s : St) : St :=
  if now - s.lastVoltageCheck ≥ 1000 then
    if batteryVoltage ≥ maxBatteryVoltageAllowed then
      let c := s.voltageErrorCount + 1
      if c ≥ 5 then
        { s with voltageErrorCount := 0, currentState := ChargeState.ERROR,
                 lastVoltageCheck := now }
      else
        { s with voltageErrorCount := c, lastVoltageCheck := now }
    else
      { s with voltageErrorCount := 0, lastVoltageCheck := now }
  else s

/-- `case BULK_CHARGE:` of `updateChargeState`. -/
def bulkCase (now : ℕ) (batteryVoltage chargeCurrent : ℚ) (s : St) : St :=
  let s := bulkControl batteryVoltage chargeCurrent s.bulkVoltage s
  let s := if s.bulkStartTime = 0 then
      { s with bulkStartTime := now,
               prefs := s.prefs ++ [("bulkStartTime", .n now)] }
    else s
  if batteryVoltage ≥ s.bulkVoltage then
    -- the local `initialSOC` computation has no state effect
    { s with currentState := ChargeState.ABSORPTION_CHARGE,
             absorptionStartTime := now, bulkStartTime := 0,
             prefs := s.prefs ++ [("bulkStartTime", .n 0)] }
  else if s.useFuenteDC ∧ s.fuenteDC_Amps > 0 ∧ s.maxBulkHours > 0 then
    let cbh : ℚ := ((now - s.bulkStartTime : ℕ) : ℚ) / 3600000.0
    let s := { s with currentBulkHours := cbh }
    if s.currentBulkHours ≥ s.maxBulkHours then
      { s with currentState := ChargeState.ABSORPTION_CHARGE,
               absorptionStartTime := now, bulkStartTime := 0,
               prefs := s.prefs ++ [("bulkStartTime", .n 0)] }
    else s
  else s

/-- `case ABSORPTION_CHARGE:` of `updateChargeState`. -/
def absorptionCase (now : ℕ) (batteryVoltage chargeCurrent : ℚ) (s : St) : St :=
  let s := absorptionControl batteryVoltage chargeCurrent s.absorptionVoltage s
  let batteryNetCurrent := s.panelToBatteryCurrent - s.batteryToLoadCurrent
  let batteryNetCurrentAmps := batteryNetCurrent / 1000.0
  let s :=
    if batteryNetCurrentAmps ≤ 0 then
      { s with calculatedAbsorptionHours := maxAbsorptionHours / 2 }
    else
      let chargedPercentage := (s.accumulatedAh / s.batteryCapacity) * 100.0
      let remainingCapacity := s.batteryCapacity * ((100.0 - chargedPercentage) / 100.0) * 1.1
      let calcHours := remainingCapacity / batteryNetCurrentAmps
      { s with calculatedAbsorptionHours :=
          if calcHours > maxAbsorptionHours then maxAbsorptionHours else calcHours }
  if batteryNetCurrent ≤ s.absorptionCurrentThreshold_mA then
    if !s.isLithium then
      resetChargingCycle now batteryVoltage
        { s with currentState := ChargeState.FLOAT_CHARGE }
    else
      absorptionControlToLitium chargeCurrent s.batteryToLoadCurrent s
  else if ((now - s.absorptionStartTime : ℕ) : ℚ) / 1000.0 / 3600.0 ≥
      s.calculatedAbsorptionHours then
    if !s.isLithium then
      resetChargingCycle now batteryVoltage
        { s with currentState := ChargeState.FLOAT_CHARGE }
    else
      { s with currentState := ChargeState.ABSORPTION_CHARGE }
  else s

/-- `case FLOAT_CHARGE:` of `updateChargeState`. -/
def floatCase (batteryVoltage chargeCurrent : ℚ) (s : St) : St :=
  if !s.isLithium then
    let s := { s with calculatedAbsorptionHours := 0 }
    if chargeCurrent ≤ s.currentLimitIntoFloatStage + s.batteryToLoadCurrent then
      floatControl batteryVoltage s.floatVoltage s
    else
      adjustPWM (-2) s
  else
    { s with currentState := ChargeState.ABSORPTION_CHARGE }

/-- `case ERROR:` of `updateChargeState`: one-time protect (load pin OFF,
tickle PWM), LED blink, and the 2-second recovery recheck back to
`ABSORPTION_CHARGE`.  The block re-reads the sensors; the embedding passes
it the tick's sampled temperature and battery voltage.  NOTE: in the source
this whole case is unreachable, because `updateChargeState` returns early
whenever `currentState == ERROR` before entering the `switch`. -/
def errorCase (now : ℕ) (currentTemp currentVoltage : ℚ) (s : St) : St :=
  let s := if !s.errorInitDone then
      -- `digitalWrite(LOAD_CONTROL_PIN, LOW); setPWM(20);` (hardware only)
      { s with loadPin := false, errorInitDone := true,
               lastErrorCheck := now, lastLedToggle := now }
    else s
  let s := if now - s.lastLedToggle ≥ 200 then
      { s with ledErrorState := !s.ledErrorState, ledSolar := !s.ledErrorState,
               lastLedToggle := now }
    else s
  if now - s.lastErrorCheck ≥ 2000 then
    if currentTemp < TEMP_THRESHOLD_SHUTDOWN ∧ currentVoltage < maxBatteryVoltageAllowed then
      if currentVoltage ≥ 12.0 then
        { s with currentState := ChargeState.ABSORPTION_CHARGE,
                 errorInitDone := false, ledSolar := false, loadPin := true,
                 lastErrorCheck := now }
      else
        { s with lastErrorCheck := now }
    else
      { s with lastErrorCheck := now }
  else s

/-- `updateChargeState(batteryVoltage, chargeCurrent)` of the evolved
sketch: over-voltage confirmation, then `if (currentState == ERROR) return;`,
then the per-state `switch`. -/
def updateChargeState (now : ℕ) (batteryVoltage chargeCurrent temp : ℚ) (s : St) : St :=
  let s := voltageSafetyCheck now batteryVoltage s
  if s.currentState = ChargeState.ERROR then s
  else
    match s.currentState with
    | ChargeState.BULK_CHARGE => bulkCase now batteryVoltage chargeCurrent s
    | ChargeState.ABSORPTION_CHARGE => absorptionCase now batteryVoltage chargeCurrent s
    | ChargeState.FLOAT_CHARGE => floatCase batteryVoltage chargeCurrent s
    | ChargeState.ERROR => errorCase now temp batteryVoltage s

/-- The "intelligent protection against PWM reset" block of `loop`: after
3 s of panel current ≤ 5 mA, force `currentPWM = 0`. -/
def lowCurrentGuard (now : ℕ) (s : St) : St :=
  if s.panelToBatteryCurrent ≤ 5.0 then
    if !s.lowCurrentDetected then
      { s with lowCurrentDetected := true, lowCurrentStart := now }
    else if now - s.lowCurrentStart ≥ 3000 ∧ s.currentPWM ≠ 0 then
      { s with currentPWM := 0, lowCurrentDetected := false }
    else s
  else
    if s.lowCurrentDetected then { s with lowCurrentDetected := false } else s

/-- The LVD/LVR block of `loop`, including the temporary-load-off expiry
branch (which re-enables the pin unconditionally). -/
def loadControlCheck (now : ℕ) (voltageBatterySensor2 : ℚ) (s : St) : St :=
  if !s.temporaryLoadOff then
    if voltageBatterySensor2 < LVD ∨ voltageBatterySensor2 > maxBatteryVoltageAllowed then
      { s with loadPin := false }
    else if voltageBatterySensor2 > LVR ∧ voltageBatterySensor2 < maxBatteryVoltageAllowed then
      { s with loadPin := true }
    else s
  else
    if now - s.loadOffStartTime ≥ s.loadOffDuration then
      { s with temporaryLoadOff := false, loadPin := true }
    else s

/-- The RE-ENTRY CHECK block of `loop`: battery < 12.6 V for ≥ 30 s forces
`BULK_CHARGE`. -/
def reentryCheck (now : ℕ) (voltageBatterySensor2 : ℚ) (s : St) : St :=
  if voltageBatterySensor2 < 12.6 then
    if !s.belowThreshold then
      { s with belowThreshold := true, lowVoltageStart := now }
    else if now - s.lowVoltageStart ≥ 30000 then
      (if s.currentState ≠ ChargeState.BULK_CHARGE then
        { s with currentState := ChargeState.BULK_CHARGE }
      else s)
    else s
  else
    { s with belowThreshold := false, lowVoltageStart := 0 }

/-- The `maxBulkHours` recalculation after `updateChargeState` in `loop`. -/
def recalcMaxBulkHours (s : St) : St :=
  if s.useFuenteDC ∧ s.fuenteDC_Amps > 0 then
    { s with maxBulkHours := s.batteryCapacity / s.fuenteDC_Amps }
  else
    { s with maxBulkHours := 0 }

/-- The over-temperature confirmation at the end of `loop`: every ≥ 2 s, a
temperature `≥ TEMP_THRESHOLD_SHUTDOWN` increments the counter (at 5 the
state becomes `ERROR` and the counter resets); a normal reading resets it. -/
def tempShutdownCheck (now : ℕ) (temp : ℚ) (s : St) : St :=
  if now - s.lastTempCheck ≥ 2000 then
    if temp ≥ TEMP_THRESHOLD_SHUTDOWN then
      let c := s.tempErrorCount + 1
      if c ≥ 5 then
        { s with tempErrorCount := 0, currentState := ChargeState.ERROR,
                 lastTempCheck := now }
      else
        { s with tempErrorCount := c, lastTempCheck := now }
    else
      { s with tempErrorCount := 0, lastTempCheck := now }
  else s

/-- The sensor inputs of one `loop` iteration: the millisecond clock and the
sampled signals (`getAverageCurrent` returns values in
`[0, maxAllowedCurrent]`, but the theorems below hold for arbitrary
rational inputs). -/
structure Inp where
  t : ℕ
  panel_mA : ℚ
  load_mA : ℚ
  vbat : ℚ
  temp : ℚ

/-- One iteration of `loop()` of the evolved sketch, in source order:
coulomb counter, persistence flush, sensor sampling, solar LED, low-current
guard, LVD/LVR (or load-off expiry), re-entry check, `updateChargeState`,
`maxBulkHours` recalculation, temperature read and over-temperature
confirmation.  Serial command handling runs between iterations and is
modelled by the separate command actions. -/
def loopStep (i : Inp) (s : St) : St :=
  let s := updateAhTracking i.t s
  let s := saveChargingState i.t s
  let s := { s with panelToBatteryCurrent := i.panel_mA,
                    batteryToLoadCurrent := i.load_mA }
  let s := { s with ledSolar := s.panelToBatteryCurrent > 50 }
  let s := lowCurrentGuard i.t s
  let s := loadControlCheck i.t i.vbat s
  let s := reentryCheck i.t i.vbat s
  let s := updateChargeState i.t i.vbat s.panelToBatteryCurrent i.temp s
  let s := recalcMaxBulkHours s
  let s := { s with temperature := i.temp }
  tempShutdownCheck i.t i.temp s

/-- Rendering of a float into a response string (`String(x, 1)`); the exact
decimal formatting is irrelevant to every property below. -/
def fmtQ (q : ℚ) : String := toString q

/-- The failure response of `handleSetCommand`: `success = false` leaves the
state untouched and produces the final `ERROR:Invalid value for …` line. -/
def setErrResp (parameter valueStr : String) (s : St) : St × String :=
  (s, "ERROR:Invalid value for " ++ parameter ++ " (received: " ++ valueStr ++ ")")

/-- The `batteryCapacity` branch of `handleSetCommand`: update the capacity,
keep the stored energy (SOC clamped to [0 %, 110 %]), recompute the derived
thresholds and `maxBulkHours`, and save both keys. -/
def setBatteryCapacity (parameter valueStr : String) (value : ℚ) (s : St) : St × String :=
  if value > 0 ∧ value ≤ 1000 then
    let currentStoredEnergy := s.accumulatedAh
    let newSOC := (currentStoredEnergy / value) * 100.0
    let newAcc :=
      if newSOC > 110.0 then (110.0 / 100.0) * value
      else if newSOC < 0.0 then 0.0
      else currentStoredEnergy
    let newThreshold := (value * s.thresholdPercentage) * 10
    let newLimit := newThreshold / (s.factorDivider : ℚ)
    let newMaxBulk := if s.useFuenteDC = true ∧ s.fuenteDC_Amps > (0 : ℚ) then
        value / s.fuenteDC_Amps else s.maxBulkHours
    let finalSOC := (newAcc / value) * 100.0
    ({ s with batteryCapacity := value, accumulatedAh := newAcc,
              absorptionCurrentThreshold_mA := newThreshold,
              currentLimitIntoFloatStage := newLimit,
              maxBulkHours := newMaxBulk,
              prefs := s.prefs ++ [("batteryCap", .f value),
                                   ("accumulatedAh", .f newAcc)] },
     "OK:" ++ parameter ++ " updated to " ++ valueStr ++
     ", SOC recalculated to " ++ fmtQ finalSOC ++ "%")
  else setErrResp parameter valueStr s

/-- The `thresholdPercentage` branch of `handleSetCommand`. -/
def setThresholdPercentage (parameter valueStr : String) (value : ℚ) (s : St) : St × String :=
  if value ≥ 0.1 ∧ value ≤ 5.0 then
    let newThreshold := (s.batteryCapacity * value) * 10
    let newLimit := newThreshold / (s.factorDivider : ℚ)
    ({ s with thresholdPercentage := value,
              absorptionCurrentThreshold_mA := newThreshold,
              currentLimitIntoFloatStage := newLimit,
              prefs := s.prefs ++ [("thresholdPerc", .f value)] },
     "OK:" ++ parameter ++ " updated to " ++ valueStr)
  else setErrResp parameter valueStr s

/-- The `maxAllowedCurrent` branch of `handleSetCommand`. -/
def setMaxAllowedCurrent (parameter valueStr : String) (value : ℚ) (s : St) : St × String :=
  if value ≥ 1000 ∧ value ≤ 15000 then
    ({ s with maxAllowedCurrent := value,
              prefs := s.prefs ++ [("maxCurrent", .f value)] },
     "OK:" ++ parameter ++ " updated to " ++ valueStr)
  else setErrResp parameter valueStr s

/-- The `bulkVoltage` branch of `handleSetCommand`. -/
def setBulkVoltage (parameter valueStr : String) (value : ℚ) (s : St) : St × String :=
  if value ≥ 12.0 ∧ value ≤ 15.0 then
    ({ s with bulkVoltage := value,
              prefs := s.prefs ++ [("bulkV", .f value)] },
     "OK:" ++ parameter ++ " updated to " ++ valueStr)
  else setErrResp parameter valueStr s

/-- The `absorptionVoltage` branch of `handleSetCommand`. -/
def setAbsorptionVoltage (parameter valueStr : String) (value : ℚ) (s : St) : St × String :=
  if value ≥ 12.0 ∧ value ≤ 15.0 then
    ({ s with absorptionVoltage := value,
              prefs := s.prefs ++ [("absV", .f value)] },
     "OK:" ++ parameter ++ " updated to " ++ valueStr)
  else setErrResp parameter valueStr s

/-- The `floatVoltage` branch of `handleSetCommand`. -/
def setFloatVoltage (parameter valueStr : String) (value : ℚ) (s : St) : St × String :=
  if value ≥ 12.0 ∧ value ≤ 15.0 then
    ({ s with floatVoltage := value,
              prefs := s.prefs ++ [("floatV", .f value)] },
     "OK:" ++ parameter ++ " updated to " ++ valueStr)
  else setErrResp parameter valueStr s

/-- The `isLithium` branch of `handleSetCommand` (no range check). -/
def setIsLithium (parameter valueStr : String) (s : St) : St × String :=
  let b := valueStr == "true" || valueStr == "1"
  ({ s with isLithium := b, prefs := s.prefs ++ [("isLithium", .b b)] },
   "OK:" ++ parameter ++ " updated to " ++ valueStr)

/-- The `useFuenteDC` branch of `handleSetCommand` (no range check). -/
def setUseFuenteDC (parameter valueStr : String) (s : St) : St × String :=
  let b := valueStr == "true" || valueStr == "1"
  ({ s with useFuenteDC := b, prefs := s.prefs ++ [("useFuenteDC", .b b)] },
   "OK:" ++ parameter ++ " updated to " ++ valueStr)

/-- The `fuenteDC_Amps` branch of `handleSetCommand`. -/
def setFuenteDCAmps (parameter valueStr : String) (value : ℚ) (s : St) : St × String :=
  if value ≥ 0 ∧ value ≤ 50 then
    let newMaxBulk := if s.useFuenteDC = true ∧ value > (0 : ℚ) then
        s.batteryCapacity / value else 0.0
    ({ s with fuenteDC_Amps := value, maxBulkHours := newMaxBulk,
              prefs := s.prefs ++ [("fuenteDC_Amps", .f value)] },
     "OK:" ++ parameter ++ " updated to " ++ valueStr)
  else setErrResp parameter valueStr s

/-- The `LVD` branch of `handleSetCommand`: the range check is performed but
the write is commented out in the source, so nothing changes. -/
def setLVD (parameter valueStr : String) (value : ℚ) (s : St) : St × String :=
  if value ≥ 10.0 ∧ value ≤ 13.0 then
    (s, "OK:" ++ parameter ++ " updated to " ++ valueStr)
  else setErrResp parameter valueStr s

/-- The `LVR` branch of `handleSetCommand`: same, the write is commented
out. -/
def setLVR (parameter valueStr : String) (value : ℚ) (s : St) : St × String :=
  if value ≥ 11.0 ∧ value ≤ 14.0 then
    (s, "OK:" ++ parameter ++ " updated to " ++ valueStr)
  else setErrResp parameter valueStr s

/-- The `factorDivider` branch of `handleSetCommand`.  `(int)value`
truncates toward zero; `value ≥ 1`, so this is the floor.  This parameter is
not in the preferences save block. -/
def setFactorDivider (parameter valueStr : String) (value : ℚ) (s : St) : St × String :=
  if value ≥ 1 ∧ value ≤ 10 then
    let newFd : ℤ := ⌊value⌋
    ({ s with factorDivider := newFd,
              currentLimitIntoFloatStage :=
                s.absorptionCurrentThreshold_mA / (newFd : ℚ) },
     "OK:" ++ parameter ++ " updated to " ++ valueStr)
  else setErrResp parameter valueStr s

/-- `handleSetCommand` of the evolved sketch.  The caller splits the line
into `SET_<parameter>:<valueStr>`; `value` is the result of
`valueStr.toFloat()`.  The source is one `if / else if` chain; each branch
is the helper named after its parameter.  The `preferences.put…` calls of
the source's separate save block are attached to the corresponding
successful branch; the final response is `"OK:…"` on success and
`"ERROR:Invalid value for …"` otherwise (the `ERROR:Unknown parameter`
string is overwritten by the final `else`, exactly as in the source). -/
def handleSetCommand (parameter valueStr : String) (value : ℚ) (s : St) : St × String :=
  if parameter = "batteryCapacity" then setBatteryCapacity parameter valueStr value s
  else if parameter = "thresholdPercentage" then setThresholdPercentage parameter valueStr value s
  else if parameter = "maxAllowedCurrent" then setMaxAllowedCurrent parameter valueStr value s
  else if parameter = "bulkVoltage" then setBulkVoltage parameter valueStr value s
  else if parameter = "absorptionVoltage" then setAbsorptionVoltage parameter valueStr value s
  else if parameter = "floatVoltage" then setFloatVoltage parameter valueStr value s
  else if parameter = "isLithium" then setIsLithium parameter valueStr s
  else if parameter = "useFuenteDC" then setUseFuenteDC parameter valueStr s
  else if parameter = "fuenteDC_Amps" then setFuenteDCAmps parameter valueStr value s
  else if parameter = "LVD" then setLVD parameter valueStr value s
  else if parameter = "LVR" then setLVR parameter valueStr value s
  else if parameter = "factorDivider" then setFactorDivider parameter valueStr value s
  else setErrResp parameter valueStr s

/-- `handleToggleLoad` of the evolved sketch (range check 1–43200 s, no
clamp; a request while the load is already OFF leaves the timer alone). -/
def handleToggleLoad (now : ℕ) (seconds : ℤ) (s : St) : St × String :=
  if 1 ≤ seconds ∧ seconds ≤ 43200 then
    if s.loadPin then
      ({ s with loadPin := false, temporaryLoadOff := true,
                loadOffStartTime := now, loadOffDuration := seconds.toNat * 1000 },
       "OK:Load turned off for " ++ toString seconds ++ " seconds")
    else
      (s, "OK:Load already off")
  else
    (s, "ERROR:Invalid time range (1-43200 seconds), received: " ++ toString seconds)

/-- The `CANCEL_TEMP_OFF` branch of `processSerialCommand`: if a temporary
load-off is active, clear it and drive `LOAD_CONTROL_PIN` HIGH
(no voltage condition in the source). -/
def cancelTempOff (s : St) : St × String :=
  if s.temporaryLoadOff then
    ({ s with temporaryLoadOff := false, loadPin := true },
     "OK:Temporary load off cancelled")
  else
    (s, "OK:No temporary off active")

/-- The state after `setup()` on a first boot (empty `Preferences` store, so
every tunable takes its default; `getFloat("accumulatedAh", -1.0)` returns
the invalid `-1`, so the counter is estimated from the voltage-based SOC).
`v0` and `temp0` are the battery voltage and temperature sampled during
`setup`.  The boot-time safety gate forces `ERROR` with the load pin LOW if
either is already critical; otherwise the state is chosen from the resting
voltage and the load pin from `v0 ≥ 12.0`. -/
def bootState (v0 temp0 : ℚ) : St :=
  let unsafeBoot := temp0 ≥ TEMP_THRESHOLD_SHUTDOWN ∨ v0 ≥ maxBatteryVoltageAllowed
  { useFuenteDC := false
    fuenteDC_Amps := 0
    maxBulkHours := 0
    maxAllowedCurrent := 6000.0
    bulkVoltage := 14.4
    absorptionVoltage := 14.4
    floatVoltage := 13.6
    currentBulkHours := 0
    absorptionCurrentThreshold_mA := (50.0 * 1.0) * 10
    currentLimitIntoFloatStage := (50.0 * 1.0) * 10 / 5
    factorDivider := 5
    accumulatedAh := (getSOCFromVoltage v0 / 100.0) * 50.0
    lastUpdateTime := 0
    lastSaveTime := 0
    calculatedAbsorptionHours := 0
    absorptionStartTime := 0
    bulkStartTime := 0
    currentState :=
      if unsafeBoot then ChargeState.ERROR
      else if v0 ≥ chargedBatteryRestVoltage then ChargeState.FLOAT_CHARGE
      else ChargeState.BULK_CHARGE
    currentPWM := 0
    panelToBatteryCurrent := 0
    batteryToLoadCurrent := 0
    batteryCapacity := 50.0
    thresholdPercentage := 1.0
    isLithium := false
    temperature := 0
    loadOffStartTime := 0
    loadOffDuration := 0
    temporaryLoadOff := false
    loadPin := if unsafeBoot then false else v0 ≥ 12.0
    ledSolar := false
    lowCurrentDetected := false
    lowCurrentStart := 0
    belowThreshold := false
    lowVoltageStart := 0
    voltageErrorCount := 0
    lastVoltageCheck := 0
    tempErrorCount := 0
    lastTempCheck := 0
    errorInitDone := false
    lastErrorCheck := 0
    lastLedToggle := 0
    ledErrorState := false
    prefs := [] }

/-- A loop input with zero sampled currents. -/
def mkInp (t : ℕ) (v temp : ℚ) : Inp := ⟨t, 0, 0, v, temp⟩

/-- Five 1-second-spaced loop iterations with the battery at exactly 15.0 V
(and 25 °C), starting from a healthy boot at 13 V: every iteration performs
an over-voltage confirmation, and the fifth trips the state machine. -/
def overvoltageTrace : St :=
  (List.range 5).foldl (fun s k => loopStep (mkInp ((k + 1) * 1000) 15.0 25) s)
    (bootState 13 25)

/-- Ten 1-second-spaced loop iterations at 95 °C with the battery at a
normal 13.0 V, starting from a healthy boot: the over-temperature
confirmation (2 s cadence) trips on the fifth confirmation. -/
def overtempTrace : St :=
  (List.range 10).foldl (fun s k => loopStep (mkInp ((k + 1) * 1000) 13 95) s)
    (bootState 13 25)

/-- Five further 1-second-spaced iterations with completely normal readings
(25 °C, 13.8 V) after `overtempTrace` has entered the Error state — more
than two full 2-second recovery rechecks' worth of time. -/
def recoveryTrace : St :=
  (List.range 5).foldl (fun s k => loopStep (mkInp ((k + 11) * 1000) 13.8 25) s)
    overtempTrace

/-- A state with an active temporary load-off: healthy boot at 13 V, one
tick, then an accepted `CMD:TOGGLE_LOAD:60`. -/
def cancelScenario : St :=
  (handleToggleLoad 2000 60 (loopStep (mkInp 1000 13 25) (bootState 13 25))).1

/-- A state about to perform its fifth consecutive over-voltage
confirmation. -/
def c1WitnessState : St := { bootState 13 25 with voltageErrorCount := 4 }

/-- A concrete mid-charge state for exercising the coulomb counter. -/
def c7State : St :=
  { bootState 13 25 with
      batteryCapacity := 100, accumulatedAh := 50, lastUpdateTime := 1000,
      panelToBatteryCurrent := 2000, batteryToLoadCurrent := 500 }

/-- The states reachable from a boot by any interleaving of 1-second loop
iterations and serial commands. -/
inductive Reachable : St → Prop where
  | boot (v0 temp0 : ℚ) : Reachable (bootState v0 temp0)
  | tick {s : St} (i : Inp) : Reachable s → Reachable (loopStep i s)
  | setCmd {s : St} (p v : String) (q : ℚ) :
      Reachable s → Reachable (handleSetCommand p v q s).1
  | toggleCmd {s : St} (now : ℕ) (sec : ℤ) :
      Reachable s → Reachable (handleToggleLoad now sec s).1
  | cancelCmd {s : St} : Reachable s → Reachable (cancelTempOff s).1

end Charger

namespace Toggle8h

/-- `const unsigned long MAX_LOAD_OFF_SECONDS = 28800UL;` (8 h). -/
def MAX_LOAD_OFF_SECONDS : ℕ := 28800

/-- The load-control portion of the 8-hour-clamp variant's state touched by
`handleToggleLoad`. -/
structure LoadCtl where
  loadPin : Bool
  temporaryLoadOff : Bool
  loadOffStartTime : ℕ
  loadOffDuration : ℕ
deriving DecidableEq, Repr

/-- `validateLoadOffDuration(unsigned long)`: cap at 8 hours, raise to at
least 1 second. -/
def validateLoadOffDuration (requestedSeconds : ℕ) : ℕ :=
  if requestedSeconds > MAX_LOAD_OFF_SECONDS then MAX_LOAD_OFF_SECONDS
  else if requestedSeconds < 1 then 1
  else requestedSeconds

/-- `handleToggleLoad` of the 8-hour-clamp variant.  `String::toInt()`
returns a signed 32-bit `long`; its assignment to
`unsigned long requestedSeconds` reduces modulo `2^32`.  The timers are
always refreshed; the pin is only written when it was HIGH. -/
def handleToggleLoad (now : ℕ) (s : ℤ) (st : LoadCtl) : LoadCtl × String :=
  let requestedSeconds : ℕ := (s % 2 ^ 32).toNat
  let validatedSeconds := validateLoadOffDuration requestedSeconds
  if 1 ≤ validatedSeconds ∧ validatedSeconds ≤ MAX_LOAD_OFF_SECONDS then
    let wasOn := st.loadPin
    let st := if wasOn then { st with loadPin := false } else st
    ({ st with temporaryLoadOff := true, loadOffStartTime := now,
               loadOffDuration := validatedSeconds * 1000 },
     "OK:Load turned off for " ++ toString validatedSeconds ++ " seconds")
  else
    (st, "ERROR:Invalid time range (1-" ++ toString MAX_LOAD_OFF_SECONDS ++
         " seconds), received: " ++ toString requestedSeconds)

end Toggle8h

namespace SocSpec

/-- The SOC breakpoint table exactly as printed in the specification:
`(11.5 → 5), (11.8 → 10), (12.0 → 20), (12.4 → 40), (12.8 → 60),
(13.2 → 80), (13.8 → 95), (14.4 → 100)`. -/
def socTable : List (ℚ × ℚ) :=
  [(11.5, 5), (11.8, 10), (12.0, 20), (12.4, 40), (12.8, 60),
   (13.2, 80), (13.8, 95), (14.4, 100)]

/-- Piecewise-linear interpolation through the remaining breakpoints, having
already passed `(x0, y0)`; at or above the last breakpoint the last value is
returned. -/
def interpFrom (v x0 y0 : ℚ) : List (ℚ × ℚ) → ℚ
  | [] => y0
  | (x1, y1) :: rest =>
      if v < x1 then y0 + (v - x0) * (y1 - y0) / (x1 - x0)
      else interpFrom v x1 y1 rest

/-- The specification's `estimated_SOC_from_voltage`: piecewise-linear
interpolation on `socTable`, `0` below the first breakpoint, `100` at and
above the last.  (Second definition written from the specification's words,
for comparison with the source's `Charger.getSOCFromVoltage`.) -/
def specSOC (v : ℚ) : ℚ :=
  match socTable with
  | [] => 0
  | (x0, y0) :: rest => if v < x0 then 0 else interpFrom v x0 y0 rest

end SocSpec

/-! ## Auxiliary lemmas -/

namespace Charger

theorem constrain_lb {x lo hi : ℤ} (h : lo ≤ hi) : lo ≤ constrain x lo hi := by
  unfold constrain; split_ifs <;> omega

theorem constrain_ub {x lo hi : ℤ} (h : lo ≤ hi) : constrain x lo hi ≤ hi := by
  unfold constrain; split_ifs <;> omega

/-- The PWM-bounds invariant. -/
def PwmInv (s : St) : Prop := 0 ≤ s.currentPWM ∧ s.currentPWM ≤ 255

theorem pwmInv_adjustPWM (d : ℤ) (s : St) : PwmInv (adjustPWM d s) :=
  ⟨constrain_lb (by norm_num), constrain_ub (by norm_num)⟩

section Preservation

variable (now : ℕ) (v c temp : ℚ) (s : St)

theorem updateAhTracking_currentState :
    (updateAhTracking now s).currentState = s.currentState := by
  unfold updateAhTracking; dsimp only
  simp only [apply_ite St.currentState, ite_self]

theorem updateAhTracking_loadPin :
    (updateAhTracking now s).loadPin = s.loadPin := by
  unfold updateAhTracking; dsimp only
  simp only [apply_ite St.loadPin, ite_self]

theorem updateAhTracking_temporaryLoadOff :
    (updateAhTracking now s).temporaryLoadOff = s.temporaryLoadOff := by
  unfold updateAhTracking; dsimp only
  simp only [apply_ite St.temporaryLoadOff, ite_self]

theorem updateAhTracking_voltageErrorCount :
    (updateAhTracking now s).voltageErrorCount = s.voltageErrorCount := by
  unfold updateAhTracking; dsimp only
  simp only [apply_ite St.voltageErrorCount, ite_self]

theorem updateAhTracking_lastVoltageCheck :
    (updateAhTracking now s).lastVoltageCheck = s.lastVoltageCheck := by
  unfold updateAhTracking; dsimp only
  simp only [apply_ite St.lastVoltageCheck, ite_self]

theorem updateAhTracking_currentPWM :
    (updateAhTracking now s).currentPWM = s.currentPWM := by
  unfold updateAhTracking; dsimp only
  simp only [apply_ite St.currentPWM, ite_self]

theorem saveChargingState_currentState :
    (saveChargingState now s).currentState = s.currentState := by
  unfold saveChargingState; split_ifs <;> rfl

theorem saveChargingState_loadPin :
    (saveChargingState now s).loadPin = s.loadPin := by
  unfold saveChargingState; split_ifs <;> rfl

theorem saveChargingState_temporaryLoadOff :
    (saveChargingState now s).temporaryLoadOff = s.temporaryLoadOff := by
  unfold saveChargingState; split_ifs <;> rfl

theorem saveChargingState_voltageErrorCount :
    (saveChargingState now s).voltageErrorCount = s.voltageErrorCount := by
  unfold saveChargingState; split_ifs <;> rfl

theorem saveChargingState_lastVoltageCheck :
    (saveChargingState now s).lastVoltageCheck = s.lastVoltageCheck := by
  unfold saveChargingState; split_ifs <;> rfl

theorem saveChargingState_currentPWM :
    (saveChargingState now s).currentPWM = s.currentPWM := by
  unfold saveChargingState; split_ifs <;> rfl

theorem lowCurrentGuard_currentState :
    (lowCurrentGuard now s).currentState = s.currentState := by
  unfold lowCurrentGuard; split_ifs <;> rfl

theorem lowCurrentGuard_loadPin :
    (lowCurrentGuard now s).loadPin = s.loadPin := by
  unfold lowCurrentGuard; split_ifs <;> rfl

theorem lowCurrentGuard_temporaryLoadOff :
    (lowCurrentGuard now s).temporaryLoadOff = s.temporaryLoadOff := by
  unfold lowCurrentGuard; split_ifs <;> rfl

theorem lowCurrentGuard_voltageErrorCount :
    (lowCurrentGuard now s).voltageErrorCount = s.voltageErrorCount := by
  unfold lowCurrentGuard; split_ifs <;> rfl

theorem lowCurrentGuard_lastVoltageCheck :
    (lowCurrentGuard now s).lastVoltageCheck = s.lastVoltageCheck := by
  unfold lowCurrentGuard; split_ifs <;> rfl

theorem pwmInv_lowCurrentGuard (h : PwmInv s) : PwmInv (lowCurrentGuard now s) := by
  unfold lowCurrentGuard
  split_ifs <;> first
    | exact h
    | exact ⟨le_refl 0, by norm_num⟩

theorem loadControlCheck_currentState :
    (loadControlCheck now v s).currentState = s.currentState := by
  unfold loadControlCheck; split_ifs <;> rfl

theorem loadControlCheck_voltageErrorCount :
    (loadControlCheck now v s).voltageErrorCount = s.voltageErrorCount := by
  unfold loadControlCheck; split_ifs <;> rfl

theorem loadControlCheck_lastVoltageCheck :
    (loadControlCheck now v s).lastVoltageCheck = s.lastVoltageCheck := by
  unfold loadControlCheck; split_ifs <;> rfl

theorem loadControlCheck_currentPWM :
    (loadControlCheck now v s).currentPWM = s.currentPWM := by
  unfold loadControlCheck; split_ifs <;> rfl

/-- With no temporary load-off active, a battery voltage strictly above
`maxBatteryVoltageAllowed` drives the load pin LOW. -/
theorem loadControlCheck_pin_hi (hto : s.temporaryLoadOff = false)
    (hv : v > maxBatteryVoltageAllowed) :
    (loadControlCheck now v s).loadPin = false ∧
    (loadControlCheck now v s).temporaryLoadOff = false := by
  unfold loadControlCheck
  rw [hto]
  rw [if_pos (by norm_num : (!false) = true), if_pos (Or.inr hv)]
  exact ⟨rfl, rfl⟩

/-- With no temporary load-off active and a battery voltage in the LVD/LVR
dead band around the thresholds (neither branch fires), the pin keeps its
previous latched state. -/
theorem loadControlCheck_pin_boundary (hto : s.temporaryLoadOff = false)
    (h1 : ¬(v < LVD ∨ v > maxBatteryVoltageAllowed))
    (h2 : ¬(v > LVR ∧ v < maxBatteryVoltageAllowed)) :
    loadControlCheck now v s = s := by
  unfold loadControlCheck
  rw [hto]
  rw [if_pos (by norm_num : (!false) = true), if_neg h1, if_neg h2]

/-- With no temporary load-off active and v < LVD, the pin is driven LOW. -/
theorem loadControlCheck_pin_lvd (hto : s.temporaryLoadOff = false)
    (hv : v < LVD) :
    (loadControlCheck now v s).loadPin = false := by
  unfold loadControlCheck
  rw [hto]
  rw [if_pos (by norm_num : (!false) = true), if_pos (Or.inl hv)]

theorem reentryCheck_loadPin :
    (reentryCheck now v s).loadPin = s.loadPin := by
  unfold reentryCheck; split_ifs <;> rfl

theorem reentryCheck_temporaryLoadOff :
    (reentryCheck now v s).temporaryLoadOff = s.temporaryLoadOff := by
  unfold reentryCheck; split_ifs <;> rfl

theorem reentryCheck_voltageErrorCount :
    (reentryCheck now v s).voltageErrorCount = s.voltageErrorCount := by
  unfold reentryCheck; split_ifs <;> rfl

theorem reentryCheck_lastVoltageCheck :
    (reentryCheck now v s).lastVoltageCheck = s.lastVoltageCheck := by
  unfold reentryCheck; split_ifs <;> rfl

theorem reentryCheck_currentPWM :
    (reentryCheck now v s).currentPWM = s.currentPWM := by
  unfold reentryCheck; split_ifs <;> rfl

theorem voltageSafetyCheck_loadPin :
    (voltageSafetyCheck now v s).loadPin = s.loadPin := by
  unfold voltageSafetyCheck; dsimp only
  simp only [apply_ite St.loadPin, ite_self]

theorem voltageSafetyCheck_currentPWM :
    (voltageSafetyCheck now v s).currentPWM = s.currentPWM := by
  unfold voltageSafetyCheck; dsimp only
  simp only [apply_ite St.currentPWM, ite_self]

/-- The fifth consecutive over-voltage confirmation trips the state to
`ERROR`. -/
theorem voltageSafetyCheck_trips (hchk : now - s.lastVoltageCheck ≥ 1000)
    (hv : v ≥ maxBatteryVoltageAllowed) (hcnt : s.voltageErrorCount = 4) :
    (voltageSafetyCheck now v s).currentState = ChargeState.ERROR := by
  unfold voltageSafetyCheck
  rw [if_pos hchk, if_pos hv, hcnt]
  norm_num

theorem recalcMaxBulkHours_currentState :
    (recalcMaxBulkHours s).currentState = s.currentState := by
  unfold recalcMaxBulkHours; split_ifs <;> rfl

theorem recalcMaxBulkHours_loadPin :
    (recalcMaxBulkHours s).loadPin = s.loadPin := by
  unfold recalcMaxBulkHours; split_ifs <;> rfl

theorem recalcMaxBulkHours_currentPWM :
    (recalcMaxBulkHours s).currentPWM = s.currentPWM := by
  unfold recalcMaxBulkHours; split_ifs <;> rfl

theorem tempShutdownCheck_loadPin :
    (tempShutdownCheck now temp s).loadPin = s.loadPin := by
  unfold tempShutdownCheck; dsimp only
  simp only [apply_ite St.loadPin, ite_self]

theorem tempShutdownCheck_currentPWM :
    (tempShutdownCheck now temp s).currentPWM = s.currentPWM := by
  unfold tempShutdownCheck; dsimp only
  simp only [apply_ite St.currentPWM, ite_self]

/-- The over-temperature confirmation never leaves the `ERROR` state. -/
theorem tempShutdownCheck_keeps_error (h : s.currentState = ChargeState.ERROR) :
    (tempShutdownCheck now temp s).currentState = ChargeState.ERROR := by
  unfold tempShutdownCheck; dsimp only
  split_ifs <;> first | rfl | exact h

end Preservation

section CasePreservation

variable (now : ℕ) (v c temp : ℚ) (s : St)

theorem bulkControl_loadPin : (bulkControl v c temp s).loadPin = s.loadPin := by
  unfold bulkControl adjustPWM; split_ifs <;> rfl

theorem absorptionControl_loadPin :
    (absorptionControl v c temp s).loadPin = s.loadPin := by
  unfold absorptionControl adjustPWM; split_ifs <;> rfl

theorem absorptionControlToLitium_loadPin :
    (absorptionControlToLitium v c s).loadPin = s.loadPin := by
  unfold absorptionControlToLitium adjustPWM; split_ifs <;> rfl

theorem floatControl_loadPin : (floatControl v c s).loadPin = s.loadPin := by
  unfold floatControl adjustPWM; split_ifs <;> rfl

theorem resetChargingCycle_loadPin :
    (resetChargingCycle now v s).loadPin = s.loadPin := by
  unfold resetChargingCycle saveChargingState; dsimp only
  simp only [apply_ite St.loadPin, ite_self]

theorem resetChargingCycle_currentPWM :
    (resetChargingCycle now v s).currentPWM = s.currentPWM := by
  unfold resetChargingCycle saveChargingState; dsimp only
  simp only [apply_ite St.currentPWM, ite_self]

theorem bulkCase_loadPin : (bulkCase now v c s).loadPin = s.loadPin := by
  unfold bulkCase; dsimp only
  simp only [apply_ite St.loadPin, ite_self, bulkControl_loadPin]

theorem absorptionCase_loadPin : (absorptionCase now v c s).loadPin = s.loadPin := by
  unfold absorptionCase; dsimp only
  simp only [apply_ite St.loadPin, ite_self, resetChargingCycle_loadPin,
    absorptionControlToLitium_loadPin, absorptionControl_loadPin]

theorem floatCase_loadPin : (floatCase v c s).loadPin = s.loadPin := by
  unfold floatCase adjustPWM; dsimp only
  simp only [apply_ite St.loadPin, ite_self, floatControl_loadPin]

/-- `updateChargeState` never touches the load pin: the only branch that
writes it is `case ERROR:`, which is unreachable because of the early
`return`. -/
theorem updateChargeState_loadPin :
    (updateChargeState now v c temp s).loadPin = s.loadPin := by
  unfold updateChargeState
  have hpin := voltageSafetyCheck_loadPin now v s
  set s' := voltageSafetyCheck now v s with hs'
  by_cases h : s'.currentState = ChargeState.ERROR
  · rw [if_pos h]; exact hpin
  · rw [if_neg h]
    rcases hst : s'.currentState with _ | _ | _ | _
    · dsimp only; rw [bulkCase_loadPin]; exact hpin
    · dsimp only; rw [absorptionCase_loadPin]; exact hpin
    · dsimp only; rw [floatCase_loadPin]; exact hpin
    · exact absurd hst h

/-- If the over-voltage confirmation trips on this call, `updateChargeState`
returns right after it (the `if (currentState == ERROR) return;`). -/
theorem updateChargeState_trips (hchk : now - s.lastVoltageCheck ≥ 1000)
    (hv : v ≥ maxBatteryVoltageAllowed) (hcnt : s.voltageErrorCount = 4) :
    updateChargeState now v c temp s = voltageSafetyCheck now v s := by
  unfold updateChargeState
  rw [if_pos (voltageSafetyCheck_trips now v s hchk hv hcnt)]

end CasePreservation

end Charger

/-! ## PWM bounds invariance -/

namespace Charger

theorem pwmInv_of_eq {a b : St} (hab : a.currentPWM = b.currentPWM)
    (h : PwmInv b) : PwmInv a := by
  rw [PwmInv, hab]; exact h

section PwmCases

variable (now : ℕ) (v c b temp : ℚ) (s : St)

theorem pwmInv_bulkControl : PwmInv (bulkControl v c b s) := by
  unfold bulkControl; split_ifs <;> exact pwmInv_adjustPWM _ _

theorem pwmInv_absorptionControl (h : PwmInv s) :
    PwmInv (absorptionControl v c b s) := by
  unfold absorptionControl
  split_ifs <;> first | exact pwmInv_adjustPWM _ _ | exact h

theorem pwmInv_absorptionControlToLitium : PwmInv (absorptionControlToLitium v c s) := by
  unfold absorptionControlToLitium; split_ifs <;> exact pwmInv_adjustPWM _ _

theorem pwmInv_floatControl (h : PwmInv s) : PwmInv (floatControl v c s) := by
  unfold floatControl
  split_ifs <;> first | exact pwmInv_adjustPWM _ _ | exact h

theorem bulkCase_currentPWM :
    (bulkCase now v c s).currentPWM = (bulkControl v c s.bulkVoltage s).currentPWM := by
  unfold bulkCase; dsimp only
  simp only [apply_ite St.currentPWM, ite_self]

theorem pwmInv_bulkCase : PwmInv (bulkCase now v c s) :=
  pwmInv_of_eq (bulkCase_currentPWM now v c s) (pwmInv_bulkControl v c _ s)

theorem pwmInv_absorptionCase (h : PwmInv s) : PwmInv (absorptionCase now v c s) := by
  unfold absorptionCase; dsimp only
  set s1 := absorptionControl v c s.absorptionVoltage s with hs1
  have h1 : PwmInv s1 := pwmInv_absorptionControl _ _ _ _ h
  split_ifs <;> first
    | exact pwmInv_of_eq (resetChargingCycle_currentPWM _ _ _) h1
    | exact pwmInv_absorptionControlToLitium _ _ _
    | exact h1

theorem pwmInv_floatCase (h : PwmInv s) : PwmInv (floatCase v c s) := by
  unfold floatCase; dsimp only
  split_ifs <;> first
    | exact pwmInv_floatControl _ _ _ h
    | exact pwmInv_adjustPWM _ _
    | exact h

theorem errorCase_currentPWM :
    (errorCase now temp v s).currentPWM = s.currentPWM := by
  unfold errorCase; dsimp only
  simp only [apply_ite St.currentPWM, ite_self]

theorem pwmInv_updateChargeState (h : PwmInv s) :
    PwmInv (updateChargeState now v c temp s) := by
  unfold updateChargeState
  have h' : PwmInv (voltageSafetyCheck now v s) :=
    pwmInv_of_eq (voltageSafetyCheck_currentPWM now v s) h
  set s' := voltageSafetyCheck now v s with hs'
  by_cases hE : s'.currentState = ChargeState.ERROR
  · rw [if_pos hE]; exact h'
  · rw [if_neg hE]
    rcases hst : s'.currentState with _ | _ | _ | _
    · exact pwmInv_bulkCase _ _ _ _
    · exact pwmInv_absorptionCase _ _ _ _ h'
    · exact pwmInv_floatCase _ _ _ h'
    · exact absurd hst hE

theorem pwmInv_loopStep (i : Inp) (h : PwmInv s) : PwmInv (loopStep i s) := by
  unfold loopStep; dsimp only
  exact pwmInv_of_eq (tempShutdownCheck_currentPWM _ _ _)
    (pwmInv_of_eq (recalcMaxBulkHours_currentPWM _)
      (pwmInv_updateChargeState _ _ _ _ _
        (pwmInv_of_eq (reentryCheck_currentPWM _ _ _)
          (pwmInv_of_eq (loadControlCheck_currentPWM _ _ _)
            (pwmInv_lowCurrentGuard _ _
              (pwmInv_of_eq (saveChargingState_currentPWM _ _)
                (pwmInv_of_eq (updateAhTracking_currentPWM _ _) h)))))))

theorem setErrResp_currentPWM (p vs : String) :
    (setErrResp p vs s).1.currentPWM = s.currentPWM := rfl

theorem setBatteryCapacity_currentPWM (p vs : String) (q : ℚ) :
    (setBatteryCapacity p vs q s).1.currentPWM = s.currentPWM := by
  unfold setBatteryCapacity setErrResp; dsimp only; split_ifs <;> rfl

theorem setThresholdPercentage_currentPWM (p vs : String) (q : ℚ) :
    (setThresholdPercentage p vs q s).1.currentPWM = s.currentPWM := by
  unfold setThresholdPercentage setErrResp; dsimp only; split_ifs <;> rfl

theorem setMaxAllowedCurrent_currentPWM (p vs : String) (q : ℚ) :
    (setMaxAllowedCurrent p vs q s).1.currentPWM = s.currentPWM := by
  unfold setMaxAllowedCurrent setErrResp; split_ifs <;> rfl

theorem setBulkVoltage_currentPWM (p vs : String) (q : ℚ) :
    (setBulkVoltage p vs q s).1.currentPWM = s.currentPWM := by
  unfold setBulkVoltage setErrResp; split_ifs <;> rfl

theorem setAbsorptionVoltage_currentPWM (p vs : String) (q : ℚ) :
    (setAbsorptionVoltage p vs q s).1.currentPWM = s.currentPWM := by
  unfold setAbsorptionVoltage setErrResp; split_ifs <;> rfl

theorem setFloatVoltage_currentPWM (p vs : String) (q : ℚ) :
    (setFloatVoltage p vs q s).1.currentPWM = s.currentPWM := by
  unfold setFloatVoltage setErrResp; split_ifs <;> rfl

theorem setFuenteDCAmps_currentPWM (p vs : String) (q : ℚ) :
    (setFuenteDCAmps p vs q s).1.currentPWM = s.currentPWM := by
  unfold setFuenteDCAmps setErrResp; dsimp only; split_ifs <;> rfl

theorem setLVD_currentPWM (p vs : String) (q : ℚ) :
    (setLVD p vs q s).1.currentPWM = s.currentPWM := by
  unfold setLVD setErrResp; split_ifs <;> rfl

theorem setLVR_currentPWM (p vs : String) (q : ℚ) :
    (setLVR p vs q s).1.currentPWM = s.currentPWM := by
  unfold setLVR setErrResp; split_ifs <;> rfl

theorem setFactorDivider_currentPWM (p vs : String) (q : ℚ) :
    (setFactorDivider p vs q s).1.currentPWM = s.currentPWM := by
  unfold setFactorDivider setErrResp; dsimp only; split_ifs <;> rfl

theorem handleSetCommand_currentPWM (p vs : String) (q : ℚ) :
    (handleSetCommand p vs q s).1.currentPWM = s.currentPWM := by
  unfold handleSetCommand
  by_cases h0 : p = "batteryCapacity"
  · rw [if_pos h0]; exact setBatteryCapacity_currentPWM s p vs q
  rw [if_neg h0]
  by_cases h1 : p = "thresholdPercentage"
  · rw [if_pos h1]; exact setThresholdPercentage_currentPWM s p vs q
  rw [if_neg h1]
  by_cases h2 : p = "maxAllowedCurrent"
  · rw [if_pos h2]; exact setMaxAllowedCurrent_currentPWM s p vs q
  rw [if_neg h2]
  by_cases h3 : p = "bulkVoltage"
  · rw [if_pos h3]; exact setBulkVoltage_currentPWM s p vs q
  rw [if_neg h3]
  by_cases h4 : p = "absorptionVoltage"
  · rw [if_pos h4]; exact setAbsorptionVoltage_currentPWM s p vs q
  rw [if_neg h4]
  by_cases h5 : p = "floatVoltage"
  · rw [if_pos h5]; exact setFloatVoltage_currentPWM s p vs q
  rw [if_neg h5]
  by_cases h6 : p = "isLithium"
  · rw [if_pos h6]; rfl
  rw [if_neg h6]
  by_cases h7 : p = "useFuenteDC"
  · rw [if_pos h7]; rfl
  rw [if_neg h7]
  by_cases h8 : p = "fuenteDC_Amps"
  · rw [if_pos h8]; exact setFuenteDCAmps_currentPWM s p vs q
  rw [if_neg h8]
  by_cases h9 : p = "LVD"
  · rw [if_pos h9]; exact setLVD_currentPWM s p vs q
  rw [if_neg h9]
  by_cases h10 : p = "LVR"
  · rw [if_pos h10]; exact setLVR_currentPWM s p vs q
  rw [if_neg h10]
  by_cases h11 : p = "factorDivider"
  · rw [if_pos h11]; exact setFactorDivider_currentPWM s p vs q
  rw [if_neg h11]
  rfl

theorem handleToggleLoad_currentPWM (sec : ℤ) :
    (handleToggleLoad now sec s).1.currentPWM = s.currentPWM := by
  unfold handleToggleLoad; split_ifs <;> rfl

theorem cancelTempOff_currentPWM :
    (cancelTempOff s).1.currentPWM = s.currentPWM := by
  unfold cancelTempOff; split_ifs <;> rfl

end PwmCases

theorem pwmInv_reachable {s : St} (h : Reachable s) : PwmInv s := by
  induction h with
  | boot v0 temp0 => exact ⟨by norm_num [bootState], by norm_num [bootState]⟩
  | tick i _ ih => exact pwmInv_loopStep _ _ ih
  | setCmd p vs q _ ih => exact pwmInv_of_eq (handleSetCommand_currentPWM _ p vs q) ih
  | toggleCmd now sec _ ih => exact pwmInv_of_eq (handleToggleLoad_currentPWM now _ sec) ih
  | cancelCmd _ ih => exact pwmInv_of_eq (cancelTempOff_currentPWM _) ih

end Charger

/-! ## Claim theorems -/

set_option maxRecDepth 1000000

namespace Charger

/-- **C1** (amended): if the battery voltage reading is `≥ 15.0 V` at the
fifth consecutive 1-second-spaced over-voltage check (the counter stands at
4 and the check interval has elapsed) and no temporary load-off is active,
then after that iteration `ChargeState = ERROR`; the load pin is OFF
provided the voltage *strictly* exceeds 15.0 V (at exactly 15.0 V the
LVD/LVR block leaves the pin in its previous state — see the
counterexample). -/
theorem overvoltage_fifth_check_error_and_load_off (s : St) (i : Inp)
    (hto : s.temporaryLoadOff = false)
    (hchk : i.t - s.lastVoltageCheck ≥ 1000)
    (hv : i.vbat ≥ maxBatteryVoltageAllowed)
    (hcnt : s.voltageErrorCount = 4) :
    (loopStep i s).currentState = ChargeState.ERROR ∧
    (i.vbat > maxBatteryVoltageAllowed → (loopStep i s).loadPin = false) := by
  unfold loopStep; dsimp only
  constructor
  · apply tempShutdownCheck_keeps_error
    rw [recalcMaxBulkHours_currentState]
    rw [updateChargeState_trips]
    · apply voltageSafetyCheck_trips
      · simp only [reentryCheck_lastVoltageCheck, loadControlCheck_lastVoltageCheck,
          lowCurrentGuard_lastVoltageCheck, saveChargingState_lastVoltageCheck,
          updateAhTracking_lastVoltageCheck]
        exact hchk
      · exact hv
      · simp only [reentryCheck_voltageErrorCount, loadControlCheck_voltageErrorCount,
          lowCurrentGuard_voltageErrorCount, saveChargingState_voltageErrorCount,
          updateAhTracking_voltageErrorCount]
        exact hcnt
    · simp only [reentryCheck_lastVoltageCheck, loadControlCheck_lastVoltageCheck,
        lowCurrentGuard_lastVoltageCheck, saveChargingState_lastVoltageCheck,
        updateAhTracking_lastVoltageCheck]
      exact hchk
    · exact hv
    · simp only [reentryCheck_voltageErrorCount, loadControlCheck_voltageErrorCount,
        lowCurrentGuard_voltageErrorCount, saveChargingState_voltageErrorCount,
        updateAhTracking_voltageErrorCount]
      exact hcnt
  · intro hgt
    rw [tempShutdownCheck_loadPin]
    show (recalcMaxBulkHours _).loadPin = false
    rw [recalcMaxBulkHours_loadPin, updateChargeState_loadPin, reentryCheck_loadPin]
    refine (loadControlCheck_pin_hi _ _ _ ?_ hgt).1
    simp only [lowCurrentGuard_temporaryLoadOff, saveChargingState_temporaryLoadOff,
      updateAhTracking_temporaryLoadOff]
    exact hto

/-- **C1** witness: a concrete fifth check at 15.5 V from a state with the
counter at 4 trips the Error state and turns the load pin off. -/
theorem overvoltage_fifth_check_witness :
    (loopStep (mkInp 1000 15.5 25) c1WitnessState).currentState = ChargeState.ERROR ∧
    ((15.5 : ℚ) > maxBatteryVoltageAllowed →
      (loopStep (mkInp 1000 15.5 25) c1WitnessState).loadPin = false) :=
  overvoltage_fifth_check_error_and_load_off c1WitnessState (mkInp 1000 15.5 25)
    (by with_unfolding_all decide) (by with_unfolding_all decide)
    (by with_unfolding_all decide) (by with_unfolding_all decide)

/-- **C1** counterexample to the claim as stated: from a reachable healthy
boot, five consecutive 1-second-spaced checks at *exactly* 15.0 V (which is
`≥ 15.0 V`) leave the controller in `ChargeState = ERROR` but with the load
pin still ON — the LVD/LVR block only drives the pin LOW for voltages
strictly above 15.0 V, and the `case ERROR:` branch that would force it LOW
is unreachable. -/
theorem overvoltage_exact_threshold_counterexample :
    Reachable overvoltageTrace ∧
    overvoltageTrace.currentState = ChargeState.ERROR ∧
    overvoltageTrace.loadPin = true := by
  refine ⟨?_, ?_, ?_⟩
  · exact Reachable.tick _ (Reachable.tick _ (Reachable.tick _ (Reachable.tick _
      (Reachable.tick _ (Reachable.boot 13 25)))))
  · with_unfolding_all decide
  · with_unfolding_all decide

/-- **C2**: evaluation at the failing input.  A confirmed over-temperature
(five 2-second checks at 95 °C) with the battery at a normal 13.0 V puts the
controller in `ChargeState = ERROR` while the LVR branch keeps the load pin
HIGH — the Error state does *not* imply the load pin is OFF, because the
`case ERROR:` block that would drive it LOW sits after the early
`if (currentState == ERROR) return;` and never runs. -/
theorem error_state_with_load_pin_high :
    Reachable overtempTrace ∧
    overtempTrace.currentState = ChargeState.ERROR ∧
    overtempTrace.loadPin = true := by
  refine ⟨?_, ?_, ?_⟩
  · exact Reachable.tick _ (Reachable.tick _ (Reachable.tick _ (Reachable.tick _
      (Reachable.tick _ (Reachable.tick _ (Reachable.tick _ (Reachable.tick _
        (Reachable.tick _ (Reachable.tick _ (Reachable.boot 13 25))))))))))
  · with_unfolding_all decide
  · with_unfolding_all decide

/-- **C3**: evaluation at the failing input.  After entering the Error state
(confirmed over-temperature), five further seconds of completely normal
readings (25 °C, 13.8 V ≥ 12.0 V) — more than two full 2-second recovery
rechecks — leave the state machine in `ChargeState = ERROR`: the
`Error → Absorption` recovery block is dead code behind the early
`return`, so the claimed transition never happens. -/
theorem error_recovery_never_fires :
    Reachable recoveryTrace ∧
    recoveryTrace.currentState = ChargeState.ERROR := by
  refine ⟨?_, ?_⟩
  · exact Reachable.tick _ (Reachable.tick _ (Reachable.tick _ (Reachable.tick _
      (Reachable.tick _ (Reachable.tick _ (Reachable.tick _ (Reachable.tick _
        (Reachable.tick _ (Reachable.tick _ (Reachable.tick _ (Reachable.tick _
          (Reachable.tick _ (Reachable.tick _ (Reachable.tick _
            (Reachable.boot 13 25)))))))))))))))
  · with_unfolding_all decide

/-- **C4**: the PWM duty stays in `[0, 255]` after every `adjustPWM`, after
every direct `setPWM`, and in every state reachable by any sequence of loop
iterations (arbitrary signal readings) and serial commands. -/
theorem pwm_duty_always_bounded :
    (∀ (d : ℤ) (s : St),
        0 ≤ (adjustPWM d s).currentPWM ∧ (adjustPWM d s).currentPWM ≤ 255) ∧
    (∀ x : ℤ, 0 ≤ setPWM x ∧ setPWM x ≤ 255) ∧
    (∀ s : St, Reachable s → 0 ≤ s.currentPWM ∧ s.currentPWM ≤ 255) :=
  ⟨fun d s => pwmInv_adjustPWM d s,
   fun _ => ⟨constrain_lb (by norm_num), constrain_ub (by norm_num)⟩,
   fun _ h => pwmInv_reachable h⟩

/-- **C4** witness: the bound evaluated on a concrete reachable state. -/
theorem pwm_duty_always_bounded_witness :
    0 ≤ (bootState 13 25).currentPWM ∧ (bootState 13 25).currentPWM ≤ 255 :=
  pwm_duty_always_bounded.2.2 (bootState 13 25) (Reachable.boot 13 25)

end Charger

namespace Toggle8h

/-- `validateLoadOffDuration` is exactly the clamp into `[1, 28800]`. -/
theorem validateLoadOffDuration_eq_clamp (n : ℕ) :
    validateLoadOffDuration n = max 1 (min 28800 n) := by
  unfold validateLoadOffDuration MAX_LOAD_OFF_SECONDS; split_ifs <;> omega

/-- **C5** (amended): for every *non-negative* integer argument `s` of
`CMD:TOGGLE_LOAD:<s>` (any value `String::toInt` can produce), the stored
load-off duration is the clamp of `s` into `[1, 28800]` seconds, the
response is `OK`, the load pin ends LOW, and the timer (start time and
duration) is refreshed even when the load pin is already OFF.  For negative
`s` the claim as stated fails: the signed value converts to a huge unsigned
long and is clamped to 28800 s, not to 1 s — see the counterexample and
claim C10. -/
theorem toggle_load_clamps_and_refreshes (sec : ℤ) (now : ℕ) (st : LoadCtl)
    (h0 : 0 ≤ sec) (h31 : sec < 2 ^ 31) :
    (handleToggleLoad now sec st).1.loadOffDuration
        = (max 1 (min 28800 sec)).toNat * 1000 ∧
    (handleToggleLoad now sec st).1.temporaryLoadOff = true ∧
    (handleToggleLoad now sec st).1.loadOffStartTime = now ∧
    (handleToggleLoad now sec st).1.loadPin = false ∧
    (handleToggleLoad now sec st).2 =
      "OK:Load turned off for " ++ toString (max 1 (min 28800 sec)).toNat ++
        " seconds" := by
  have hmod : sec % 2 ^ 32 = sec := by omega
  have hval : validateLoadOffDuration (sec % 2 ^ 32).toNat
      = (max 1 (min 28800 sec)).toNat := by
    rw [hmod]
    unfold validateLoadOffDuration MAX_LOAD_OFF_SECONDS
    split_ifs <;> omega
  unfold handleToggleLoad
  dsimp only
  rw [hval]
  have hcond : 1 ≤ (max 1 (min 28800 sec)).toNat ∧
      (max 1 (min 28800 sec)).toNat ≤ MAX_LOAD_OFF_SECONDS := by
    unfold MAX_LOAD_OFF_SECONDS; constructor <;> omega
  rw [if_pos hcond]
  refine ⟨rfl, rfl, rfl, ?_, rfl⟩
  cases hpin : st.loadPin <;> simp [hpin]

/-- **C5** witness: `TOGGLE_LOAD:40000` with the load already OFF stores
the clamped 28800 s, answers `OK`, and refreshes the timer. -/
theorem toggle_load_clamp_witness :
    (handleToggleLoad 5 40000 ⟨false, false, 0, 0⟩).1.loadOffDuration
        = (max 1 (min 28800 (40000 : ℤ))).toNat * 1000 ∧
    (handleToggleLoad 5 40000 ⟨false, false, 0, 0⟩).1.temporaryLoadOff = true ∧
    (handleToggleLoad 5 40000 ⟨false, false, 0, 0⟩).1.loadOffStartTime = 5 ∧
    (handleToggleLoad 5 40000 ⟨false, false, 0, 0⟩).1.loadPin = false ∧
    (handleToggleLoad 5 40000 ⟨false, false, 0, 0⟩).2 =
      "OK:Load turned off for " ++ toString (max 1 (min 28800 (40000 : ℤ))).toNat ++
        " seconds" :=
  toggle_load_clamps_and_refreshes 40000 5 ⟨false, false, 0, 0⟩ (by decide) (by decide)

/-- **C5** counterexample to the claim as stated: for `s = -5` the stored
duration is 28 800 000 ms, not `1000 × clamp₍₁,₂₈₈₀₀₎(-5) = 1000` ms. -/
theorem toggle_load_negative_counterexample :
    ¬ ((handleToggleLoad 0 (-5) ⟨true, false, 0, 0⟩).1.loadOffDuration
        = (max 1 (min 28800 (-5 : ℤ))).toNat * 1000) := by
  with_unfolding_all decide

/-- **C10**: for every negative integer argument `s` (any value
`String::toInt` can produce), the 8-hour-clamp `TOGGLE_LOAD` handler does
not reject the command: the signed value converts to a huge unsigned long,
is clamped to 28800 seconds, the load is switched OFF with the timer set to
the full 8 hours, and the response is `OK`. -/
theorem toggle_load_negative_full_clamp (sec : ℤ) (now : ℕ) (st : LoadCtl)
    (hlo : -(2 ^ 31) ≤ sec) (hneg : sec < 0) :
    (handleToggleLoad now sec st).1.loadOffDuration = 28800 * 1000 ∧
    (handleToggleLoad now sec st).1.temporaryLoadOff = true ∧
    (handleToggleLoad now sec st).1.loadOffStartTime = now ∧
    (handleToggleLoad now sec st).1.loadPin = false ∧
    (handleToggleLoad now sec st).2 = "OK:Load turned off for 28800 seconds" := by
  have hbig : (sec % 2 ^ 32).toNat > 28800 := by omega
  have hval : validateLoadOffDuration (sec % 2 ^ 32).toNat = 28800 := by
    unfold validateLoadOffDuration MAX_LOAD_OFF_SECONDS
    rw [if_pos hbig]
  unfold handleToggleLoad
  dsimp only
  rw [hval]
  have hcond : 1 ≤ 28800 ∧ 28800 ≤ MAX_LOAD_OFF_SECONDS := by
    unfold MAX_LOAD_OFF_SECONDS; constructor <;> omega
  rw [if_pos hcond]
  refine ⟨rfl, rfl, rfl, ?_, rfl⟩
  cases hpin : st.loadPin <;> simp [hpin]

/-- **C10** witness: `CMD:TOGGLE_LOAD:-5` switches the load off for the
full 8 hours and answers `OK`. -/
theorem toggle_load_negative_full_clamp_witness :
    (handleToggleLoad 0 (-5) ⟨true, false, 0, 0⟩).1.loadOffDuration = 28800 * 1000 ∧
    (handleToggleLoad 0 (-5) ⟨true, false, 0, 0⟩).1.temporaryLoadOff = true ∧
    (handleToggleLoad 0 (-5) ⟨true, false, 0, 0⟩).1.loadOffStartTime = 0 ∧
    (handleToggleLoad 0 (-5) ⟨true, false, 0, 0⟩).1.loadPin = false ∧
    (handleToggleLoad 0 (-5) ⟨true, false, 0, 0⟩).2 =
      "OK:Load turned off for 28800 seconds" :=
  toggle_load_negative_full_clamp (-5) 0 ⟨true, false, 0, 0⟩ (by decide) (by decide)

end Toggle8h

namespace Charger

/-- **C9** (amended): in every state with an active temporary load-off,
`CMD:CANCEL_TEMP_OFF` clears the timer and drives the load pin HIGH
*unconditionally* — the handler never looks at the battery voltage; the LVD
rule only re-asserts itself on the next 1-second tick, whose LVD/LVR block
turns the pin OFF again when the battery voltage is below 12.0 V. -/
theorem cancel_temp_off_reenables_unconditionally (s : St) (hto : s.temporaryLoadOff = true) :
    (cancelTempOff s).1.temporaryLoadOff = false ∧
    (cancelTempOff s).1.loadPin = true ∧
    (cancelTempOff s).2 = "OK:Temporary load off cancelled" ∧
    (∀ i : Inp, i.vbat < LVD → (loopStep i (cancelTempOff s).1).loadPin = false) := by
  unfold cancelTempOff
  rw [hto, if_pos rfl]
  refine ⟨rfl, rfl, rfl, ?_⟩
  intro i hv
  unfold loopStep; dsimp only
  rw [tempShutdownCheck_loadPin]
  show (recalcMaxBulkHours _).loadPin = false
  rw [recalcMaxBulkHours_loadPin, updateChargeState_loadPin, reentryCheck_loadPin]
  apply loadControlCheck_pin_lvd
  · simp only [lowCurrentGuard_temporaryLoadOff, saveChargingState_temporaryLoadOff,
      updateAhTracking_temporaryLoadOff]
  · exact hv

/-- **C9** counterexample to the claim as stated: from a reachable state
with the load-off timer active, `CMD:CANCEL_TEMP_OFF` drives the pin HIGH
immediately and unconditionally — in particular it is driven HIGH even while
the battery voltage is below the 12.0 V LVD threshold, contrary to the
claim. -/
theorem cancel_temp_off_ignores_lvd_counterexample :
    Reachable cancelScenario ∧
    cancelScenario.temporaryLoadOff = true ∧
    (cancelTempOff cancelScenario).1.loadPin = true := by
  refine ⟨?_, ?_, ?_⟩
  · exact Reachable.toggleCmd 2000 60 (Reachable.tick _ (Reachable.boot 13 25))
  · with_unfolding_all decide
  · with_unfolding_all decide

/-- **C9** witness: cancelling a concrete active load-off clears the
timer, and the following tick at 11 V turns the pin OFF again. -/
theorem cancel_temp_off_witness :
    (cancelTempOff cancelScenario).1.temporaryLoadOff = false ∧
    (loopStep (mkInp 3000 11 25) (cancelTempOff cancelScenario).1).loadPin = false :=
  ⟨(cancel_temp_off_reenables_unconditionally cancelScenario (by with_unfolding_all decide)).1,
   (cancel_temp_off_reenables_unconditionally cancelScenario (by with_unfolding_all decide)).2.2.2 (mkInp 3000 11 25)
     (by norm_num [mkInp, LVD])⟩

end Charger

/-! ## Claims C6, C7, C8 -/

namespace Charger

theorem strAppendAssoc (a b c : String) : a ++ b ++ c = a ++ (b ++ c) :=
  String.ext (by simp [String.data_append, List.append_assoc])

theorem errPrefixSplit (p vs : String) :
    "ERROR:Invalid value for " ++ p ++ " (received: " ++ vs ++ ")" =
      "ERROR:Invalid value" ++ (" for " ++ p ++ " (received: " ++ vs ++ ")") := by
  have h : ("ERROR:Invalid value for " : String) = "ERROR:Invalid value" ++ " for " := by
    decide
  rw [h, strAppendAssoc "ERROR:Invalid value" " for " p,
      strAppendAssoc "ERROR:Invalid value" (" for " ++ p) " (received: ",
      strAppendAssoc "ERROR:Invalid value" (" for " ++ p ++ " (received: ") vs,
      strAppendAssoc "ERROR:Invalid value" (" for " ++ p ++ " (received: " ++ vs) ")"]

/-- **C6**: a `CMD:SET_<param>:<value>` whose value fails the parameter's
range check leaves the state (every tunable, derived value and persisted
key) untouched and answers exactly
`ERROR:Invalid value for <param> (received: <value>)`, which starts with
`ERROR:Invalid value`. -/
theorem set_out_of_range_rejected (p vs : String) (q : ℚ) (s : St)
    (hrange :
      (p = "batteryCapacity" ∧ ¬(q > 0 ∧ q ≤ 1000)) ∨
      (p = "thresholdPercentage" ∧ ¬(q ≥ 0.1 ∧ q ≤ 5.0)) ∨
      (p = "maxAllowedCurrent" ∧ ¬(q ≥ 1000 ∧ q ≤ 15000)) ∨
      (p = "bulkVoltage" ∧ ¬(q ≥ 12.0 ∧ q ≤ 15.0)) ∨
      (p = "absorptionVoltage" ∧ ¬(q ≥ 12.0 ∧ q ≤ 15.0)) ∨
      (p = "floatVoltage" ∧ ¬(q ≥ 12.0 ∧ q ≤ 15.0)) ∨
      (p = "fuenteDC_Amps" ∧ ¬(q ≥ 0 ∧ q ≤ 50)) ∨
      (p = "LVD" ∧ ¬(q ≥ 10.0 ∧ q ≤ 13.0)) ∨
      (p = "LVR" ∧ ¬(q ≥ 11.0 ∧ q ≤ 14.0)) ∨
      (p = "factorDivider" ∧ ¬(q ≥ 1 ∧ q ≤ 10))) :
    handleSetCommand p vs q s =
      (s, "ERROR:Invalid value for " ++ p ++ " (received: " ++ vs ++ ")") ∧
    ∃ rest, (handleSetCommand p vs q s).2 = "ERROR:Invalid value" ++ rest := by
  have hmain : handleSetCommand p vs q s =
      (s, "ERROR:Invalid value for " ++ p ++ " (received: " ++ vs ++ ")") := by
    rcases hrange with ⟨hp, hq⟩ | ⟨hp, hq⟩ | ⟨hp, hq⟩ | ⟨hp, hq⟩ | ⟨hp, hq⟩ |
      ⟨hp, hq⟩ | ⟨hp, hq⟩ | ⟨hp, hq⟩ | ⟨hp, hq⟩ | ⟨hp, hq⟩ <;> subst hp <;>
      unfold handleSetCommand
    · rw [if_pos rfl]
      unfold setBatteryCapacity
      rw [if_neg hq]; rfl
    · rw [if_neg (by decide), if_pos rfl]
      unfold setThresholdPercentage
      rw [if_neg hq]; rfl
    · rw [if_neg (by decide), if_neg (by decide), if_pos rfl]
      unfold setMaxAllowedCurrent
      rw [if_neg hq]; rfl
    · rw [if_neg (by decide), if_neg (by decide), if_neg (by decide), if_pos rfl]
      unfold setBulkVoltage
      rw [if_neg hq]; rfl
    · rw [if_neg (by decide), if_neg (by decide), if_neg (by decide),
        if_neg (by decide), if_pos rfl]
      unfold setAbsorptionVoltage
      rw [if_neg hq]; rfl
    · rw [if_neg (by decide), if_neg (by decide), if_neg (by decide),
        if_neg (by decide), if_neg (by decide), if_pos rfl]
      unfold setFloatVoltage
      rw [if_neg hq]; rfl
    · rw [if_neg (by decide), if_neg (by decide), if_neg (by decide),
        if_neg (by decide), if_neg (by decide), if_neg (by decide),
        if_neg (by decide), if_neg (by decide), if_pos rfl]
      unfold setFuenteDCAmps
      rw [if_neg hq]; rfl
    · rw [if_neg (by decide), if_neg (by decide), if_neg (by decide),
        if_neg (by decide), if_neg (by decide), if_neg (by decide),
        if_neg (by decide), if_neg (by decide), if_neg (by decide), if_pos rfl]
      unfold setLVD
      rw [if_neg hq]; rfl
    · rw [if_neg (by decide), if_neg (by decide), if_neg (by decide),
        if_neg (by decide), if_neg (by decide), if_neg (by decide),
        if_neg (by decide), if_neg (by decide), if_neg (by decide),
        if_neg (by decide), if_pos rfl]
      unfold setLVR
      rw [if_neg hq]; rfl
    · rw [if_neg (by decide), if_neg (by decide), if_neg (by decide),
        if_neg (by decide), if_neg (by decide), if_neg (by decide),
        if_neg (by decide), if_neg (by decide), if_neg (by decide),
        if_neg (by decide), if_neg (by decide), if_pos rfl]
      unfold setFactorDivider
      rw [if_neg hq]; rfl
  refine ⟨hmain, ⟨" for " ++ p ++ " (received: " ++ vs ++ ")", ?_⟩⟩
  rw [hmain]
  exact errPrefixSplit p vs

/-- **C6** witness: `SET_bulkVoltage:20` (out of the 12–15 V range) is
rejected with the exact error line and the state is unchanged. -/
theorem set_out_of_range_rejected_witness :
    (("bulkVoltage" : String) = "bulkVoltage" ∧ ¬((20 : ℚ) ≥ 12.0 ∧ (20 : ℚ) ≤ 15.0)) ∧
    (handleSetCommand "bulkVoltage" "20" 20 (bootState 13 25) =
      (bootState 13 25,
       "ERROR:Invalid value for " ++ "bulkVoltage" ++ " (received: " ++ "20" ++ ")") ∧
     ∃ rest, (handleSetCommand "bulkVoltage" "20" 20 (bootState 13 25)).2 =
       "ERROR:Invalid value" ++ rest) :=
  ⟨⟨rfl, by norm_num⟩,
   set_out_of_range_rejected "bulkVoltage" "20" 20 (bootState 13 25)
     (Or.inr (Or.inr (Or.inr (Or.inl ⟨rfl, by norm_num⟩))))⟩

end Charger

namespace Charger

/-- **C7**: every `updateAhTracking` call changes `accumulatedAh` by at most
`batteryCapacity × Δt_hours` (the 1 C rate cap), leaves it in
`[0, 1.1 × batteryCapacity]`, and the guarded calls — first call
(`lastUpdateTime = 0`), gap above 1 h, gap below 10⁻⁴ h — do not integrate. -/
theorem updateAhTracking_bounded (now : ℕ) (s : St)
    (hcap : 0 < s.batteryCapacity)
    (hlo : 0 ≤ s.accumulatedAh)
    (hhi : s.accumulatedAh ≤ s.batteryCapacity * 1.1) :
    |(updateAhTracking now s).accumulatedAh - s.accumulatedAh| ≤
        s.batteryCapacity * (((now - s.lastUpdateTime : ℕ) : ℚ) / 3600000.0) ∧
    (0 ≤ (updateAhTracking now s).accumulatedAh ∧
      (updateAhTracking now s).accumulatedAh ≤ s.batteryCapacity * 1.1) ∧
    ((s.lastUpdateTime = 0 ∨ ((now - s.lastUpdateTime : ℕ) : ℚ) / 3600000.0 > 1.0 ∨
        ((now - s.lastUpdateTime : ℕ) : ℚ) / 3600000.0 < 0.0001) →
      (updateAhTracking now s).accumulatedAh = s.accumulatedAh) := by
  unfold updateAhTracking
  dsimp only
  set dh : ℚ := ((now - s.lastUpdateTime : ℕ) : ℚ) / 3600000.0 with hdhdef
  have hdh0 : 0 ≤ dh := by rw [hdhdef]; positivity
  have hcd : 0 ≤ s.batteryCapacity * dh := mul_nonneg hcap.le hdh0
  by_cases h1 : s.lastUpdateTime = 0
  · rw [if_pos h1]
    exact ⟨by simpa using hcd, ⟨hlo, hhi⟩, fun _ => rfl⟩
  · rw [if_neg h1]
    by_cases h2 : dh > 1.0
    · rw [if_pos h2]
      exact ⟨by simpa using hcd, ⟨hlo, hhi⟩, fun _ => rfl⟩
    · rw [if_neg h2]
      by_cases h3 : dh < 0.0001
      · rw [if_pos h3]
        exact ⟨by simpa using hcd, ⟨hlo, hhi⟩, fun _ => rfl⟩
      · rw [if_neg h3]
        dsimp only
        have hmax : s.batteryCapacity / 3600.0 * dh * 3600.0 = s.batteryCapacity * dh := by
          ring
        rw [hmax]
        set cc := s.panelToBatteryCurrent / 1000.0 with hcc
        set dc := s.batteryToLoadCurrent / 1000.0 with hdc
        set ahRaw := ((if cc < 0 then 0 else cc) - (if dc < 0 then 0 else dc)) * dh
          with hahraw
        set ah := if |ahRaw| > s.batteryCapacity * dh then
            (if ahRaw > 0 then s.batteryCapacity * dh else -(s.batteryCapacity * dh))
          else ahRaw with hahdef
        have hahb : |ah| ≤ s.batteryCapacity * dh := by
          rw [hahdef]
          split_ifs with h6 h7
          · rw [abs_of_nonneg hcd]
          · rw [abs_neg, abs_of_nonneg hcd]
          · exact not_lt.mp h6
        obtain ⟨hcl, hcu⟩ := abs_le.mp hahb
        refine ⟨?_, ⟨?_, ?_⟩, fun hsk => ?_⟩
        · split_ifs with hA hB hB <;> (rw [abs_le]; constructor <;> linarith)
        · split_ifs with hA hB hB <;> linarith
        · split_ifs with hA hB hB <;> linarith
        · rcases hsk with h | h | h
          · exact absurd h h1
          · exact absurd h h2
          · exact absurd h h3

/-- **C7** witness: an in-range state and a one-hour gap satisfy the
hypotheses, so the bound applies to a concrete integrating call. -/
theorem updateAhTracking_bounded_witness :
    ((0 : ℚ) < c7State.batteryCapacity ∧ (0 : ℚ) ≤ c7State.accumulatedAh ∧
      c7State.accumulatedAh ≤ c7State.batteryCapacity * 1.1) ∧
    (|(updateAhTracking 3601000 c7State).accumulatedAh - c7State.accumulatedAh| ≤
        c7State.batteryCapacity *
          (((3601000 - c7State.lastUpdateTime : ℕ) : ℚ) / 3600000.0) ∧
     (0 ≤ (updateAhTracking 3601000 c7State).accumulatedAh ∧
       (updateAhTracking 3601000 c7State).accumulatedAh ≤
         c7State.batteryCapacity * 1.1) ∧
     ((c7State.lastUpdateTime = 0 ∨
         ((3601000 - c7State.lastUpdateTime : ℕ) : ℚ) / 3600000.0 > 1.0 ∨
         ((3601000 - c7State.lastUpdateTime : ℕ) : ℚ) / 3600000.0 < 0.0001) →
       (updateAhTracking 3601000 c7State).accumulatedAh = c7State.accumulatedAh)) :=
  ⟨⟨by with_unfolding_all decide, by with_unfolding_all decide,
    by with_unfolding_all decide⟩,
   updateAhTracking_bounded 3601000 c7State (by with_unfolding_all decide)
     (by with_unfolding_all decide) (by with_unfolding_all decide)⟩

theorem fLerp_eval (x x0 x1 y0 y1 : ℚ) (h : ¬x1 = x0) :
    fLerp x x0 x1 y0 y1 = y0 + (x - x0) * (y1 - y0) / (x1 - x0) := by
  unfold fLerp
  rw [if_neg h]

theorem socRegions (x : ℚ) :
    x < 11.5 ∨ (x ≥ 11.5 ∧ x < 11.8) ∨ (x ≥ 11.8 ∧ x < 12.0) ∨ (x ≥ 12.0 ∧ x < 12.4) ∨ (x ≥ 12.4 ∧ x < 12.8) ∨ (x ≥ 12.8 ∧ x < 13.2) ∨ (x ≥ 13.2 ∧ x < 13.8) ∨ (x ≥ 13.8 ∧ x < 14.4) ∨ x ≥ 14.4 := by
  rcases lt_or_ge x 11.5 with h1 | h1
  · exact Or.inl h1
  rcases lt_or_ge x 11.8 with h2 | h2
  · exact Or.inr ((Or.inl ⟨h1, h2⟩))
  rcases lt_or_ge x 12.0 with h3 | h3
  · exact Or.inr (Or.inr ((Or.inl ⟨h2, h3⟩)))
  rcases lt_or_ge x 12.4 with h4 | h4
  · exact Or.inr (Or.inr (Or.inr ((Or.inl ⟨h3, h4⟩))))
  rcases lt_or_ge x 12.8 with h5 | h5
  · exact Or.inr (Or.inr (Or.inr (Or.inr ((Or.inl ⟨h4, h5⟩)))))
  rcases lt_or_ge x 13.2 with h6 | h6
  · exact Or.inr (Or.inr (Or.inr (Or.inr (Or.inr ((Or.inl ⟨h5, h6⟩))))))
  rcases lt_or_ge x 13.8 with h7 | h7
  · exact Or.inr (Or.inr (Or.inr (Or.inr (Or.inr (Or.inr ((Or.inl ⟨h6, h7⟩)))))))
  rcases lt_or_ge x 14.4 with h8 | h8
  · exact Or.inr (Or.inr (Or.inr (Or.inr (Or.inr (Or.inr (Or.inr ((Or.inl ⟨h7, h8⟩))))))))
  exact Or.inr (Or.inr (Or.inr (Or.inr (Or.inr (Or.inr (Or.inr (Or.inr (h8))))))))

theorem socSeg0 (x : ℚ) (h2 : x < 11.5) :
    getSOCFromVoltage x = 0.0 := by
  unfold getSOCFromVoltage
  rw [if_neg (show ¬x ≥ 14.4 by simp only [ge_iff_le, not_le]; linarith),
      if_neg (show ¬x ≥ 13.8 by simp only [ge_iff_le, not_le]; linarith),
      if_neg (show ¬x ≥ 13.2 by simp only [ge_iff_le, not_le]; linarith),
      if_neg (show ¬x ≥ 12.8 by simp only [ge_iff_le, not_le]; linarith),
      if_neg (show ¬x ≥ 12.4 by simp only [ge_iff_le, not_le]; linarith),
      if_neg (show ¬x ≥ 12.0 by simp only [ge_iff_le, not_le]; linarith),
      if_neg (show ¬x ≥ 11.8 by simp only [ge_iff_le, not_le]; linarith),
      if_neg (show ¬x ≥ 11.5 by simp only [ge_iff_le, not_le]; linarith)]

theorem socSeg1 (x : ℚ) (h1 : x ≥ 11.5) (h2 : x < 11.8) :
    getSOCFromVoltage x = 5.0 + (x - 11.5) * (10.0 - 5.0) / (11.8 - 11.5) := by
  unfold getSOCFromVoltage
  rw [if_neg (show ¬x ≥ 14.4 by simp only [ge_iff_le, not_le]; linarith),
      if_neg (show ¬x ≥ 13.8 by simp only [ge_iff_le, not_le]; linarith),
      if_neg (show ¬x ≥ 13.2 by simp only [ge_iff_le, not_le]; linarith),
      if_neg (show ¬x ≥ 12.8 by simp only [ge_iff_le, not_le]; linarith),
      if_neg (show ¬x ≥ 12.4 by simp only [ge_iff_le, not_le]; linarith),
      if_neg (show ¬x ≥ 12.0 by simp only [ge_iff_le, not_le]; linarith),
      if_neg (show ¬x ≥ 11.8 by simp only [ge_iff_le, not_le]; linarith),
      if_pos h1]
  rw [fLerp_eval x 11.5 11.8 5.0 10.0 (by norm_num)]

theorem socSeg2 (x : ℚ) (h1 : x ≥ 11.8) (h2 : x < 12.0) :
    getSOCFromVoltage x = 10.0 + (x - 11.8) * (20.0 - 10.0) / (12.0 - 11.8) := by
  unfold getSOCFromVoltage
  rw [if_neg (show ¬x ≥ 14.4 by simp only [ge_iff_le, not_le]; linarith),
      if_neg (show ¬x ≥ 13.8 by simp only [ge_iff_le, not_le]; linarith),
      if_neg (show ¬x ≥ 13.2 by simp only [ge_iff_le, not_le]; linarith),
      if_neg (show ¬x ≥ 12.8 by simp only [ge_iff_le, not_le]; linarith),
      if_neg (show ¬x ≥ 12.4 by simp only [ge_iff_le, not_le]; linarith),
      if_neg (show ¬x ≥ 12.0 by simp only [ge_iff_le, not_le]; linarith),
      if_pos h1]
  rw [fLerp_eval x 11.8 12.0 10.0 20.0 (by norm_num)]

theorem socSeg3 (x : ℚ) (h1 : x ≥ 12.0) (h2 : x < 12.4) :
    getSOCFromVoltage x = 20.0 + (x - 12.0) * (40.0 - 20.0) / (12.4 - 12.0) := by
  unfold getSOCFromVoltage
  rw [if_neg (show ¬x ≥ 14.4 by simp only [ge_iff_le, not_le]; linarith),
      if_neg (show ¬x ≥ 13.8 by simp only [ge_iff_le, not_le]; linarith),
      if_neg (show ¬x ≥ 13.2 by simp only [ge_iff_le, not_le]; linarith),
      if_neg (show ¬x ≥ 12.8 by simp only [ge_iff_le, not_le]; linarith),
      if_neg (show ¬x ≥ 12.4 by simp only [ge_iff_le, not_le]; linarith),
      if_pos h1]
  rw [fLerp_eval x 12.0 12.4 20.0 40.0 (by norm_num)]

theorem socSeg4 (x : ℚ) (h1 : x ≥ 12.4) (h2 : x < 12.8) :
    getSOCFromVoltage x = 40.0 + (x - 12.4) * (60.0 - 40.0) / (12.8 - 12.4) := by
  unfold getSOCFromVoltage
  rw [if_neg (show ¬x ≥ 14.4 by simp only [ge_iff_le, not_le]; linarith),
      if_neg (show ¬x ≥ 13.8 by simp only [ge_iff_le, not_le]; linarith),
      if_neg (show ¬x ≥ 13.2 by simp only [ge_iff_le, not_le]; linarith),
      if_neg (show ¬x ≥ 12.8 by simp only [ge_iff_le, not_le]; linarith),
      if_pos h1]
  rw [fLerp_eval x 12.4 12.8 40.0 60.0 (by norm_num)]

theorem socSeg5 (x : ℚ) (h1 : x ≥ 12.8) (h2 : x < 13.2) :
    getSOCFromVoltage x = 60.0 + (x - 12.8) * (80.0 - 60.0) / (13.2 - 12.8) := by
  unfold getSOCFromVoltage
  rw [if_neg (show ¬x ≥ 14.4 by simp only [ge_iff_le, not_le]; linarith),
      if_neg (show ¬x ≥ 13.8 by simp only [ge_iff_le, not_le]; linarith),
      if_neg (show ¬x ≥ 13.2 by simp only [ge_iff_le, not_le]; linarith),
      if_pos h1]
  rw [fLerp_eval x 12.8 13.2 60.0 80.0 (by norm_num)]

theorem socSeg6 (x : ℚ) (h1 : x ≥ 13.2) (h2 : x < 13.8) :
    getSOCFromVoltage x = 80.0 + (x - 13.2) * (95.0 - 80.0) / (13.8 - 13.2) := by
  unfold getSOCFromVoltage
  rw [if_neg (show ¬x ≥ 14.4 by simp only [ge_iff_le, not_le]; linarith),
      if_neg (show ¬x ≥ 13.8 by simp only [ge_iff_le, not_le]; linarith),
      if_pos h1]
  rw [fLerp_eval x 13.2 13.8 80.0 95.0 (by norm_num)]

theorem socSeg7 (x : ℚ) (h1 : x ≥ 13.8) (h2 : x < 14.4) :
    getSOCFromVoltage x = 95.0 + (x - 13.8) * (100.0 - 95.0) / (14.4 - 13.8) := by
  unfold getSOCFromVoltage
  rw [if_neg (show ¬x ≥ 14.4 by simp only [ge_iff_le, not_le]; linarith),
      if_pos h1]
  rw [fLerp_eval x 13.8 14.4 95.0 100.0 (by norm_num)]

theorem socSeg8 (x : ℚ) (h1 : x ≥ 14.4) :
    getSOCFromVoltage x = 100.0 := by
  unfold getSOCFromVoltage
  rw [if_pos h1]

set_option maxHeartbeats 1000000 in
theorem getSOC_eq_spec (v : ℚ) : getSOCFromVoltage v = SocSpec.specSOC v := by
  simp only [SocSpec.specSOC, SocSpec.socTable, SocSpec.interpFrom]
  rcases socRegions v with hv | ⟨hv, hv2⟩ | ⟨hv, hv2⟩ | ⟨hv, hv2⟩ | ⟨hv, hv2⟩ | ⟨hv, hv2⟩ | ⟨hv, hv2⟩ | ⟨hv, hv2⟩ | hv
  · rw [socSeg0 v hv]
    rw [if_pos hv]
    first | linarith | norm_num
  · rw [socSeg1 v hv hv2]
    rw [if_neg (show ¬v < 11.5 by simp only [not_lt]; linarith),
        if_pos hv2]
    first | linarith | norm_num
  · rw [socSeg2 v hv hv2]
    rw [if_neg (show ¬v < 11.5 by simp only [not_lt]; linarith),
        if_neg (show ¬v < 11.8 by simp only [not_lt]; linarith),
        if_pos hv2]
    first | linarith | norm_num
  · rw [socSeg3 v hv hv2]
    rw [if_neg (show ¬v < 11.5 by simp only [not_lt]; linarith),
        if_neg (show ¬v < 11.8 by simp only [not_lt]; linarith),
        if_neg (show ¬v < 12.0 by simp only [not_lt]; linarith),
        if_pos hv2]
    first | linarith | norm_num
  · rw [socSeg4 v hv hv2]
    rw [if_neg (show ¬v < 11.5 by simp only [not_lt]; linarith),
        if_neg (show ¬v < 11.8 by simp only [not_lt]; linarith),
        if_neg (show ¬v < 12.0 by simp only [not_lt]; linarith),
        if_neg (show ¬v < 12.4 by simp only [not_lt]; linarith),
        if_pos hv2]
    first | linarith | norm_num
  · rw [socSeg5 v hv hv2]
    rw [if_neg (show ¬v < 11.5 by simp only [not_lt]; linarith),
        if_neg (show ¬v < 11.8 by simp only [not_lt]; linarith),
        if_neg (show ¬v < 12.0 by simp only [not_lt]; linarith),
        if_neg (show ¬v < 12.4 by simp only [not_lt]; linarith),
        if_neg (show ¬v < 12.8 by simp only [not_lt]; linarith),
        if_pos hv2]
    first | linarith | norm_num
  · rw [socSeg6 v hv hv2]
    rw [if_neg (show ¬v < 11.5 by simp only [not_lt]; linarith),
        if_neg (show ¬v < 11.8 by simp only [not_lt]; linarith),
        if_neg (show ¬v < 12.0 by simp only [not_lt]; linarith),
        if_neg (show ¬v < 12.4 by simp only [not_lt]; linarith),
        if_neg (show ¬v < 12.8 by simp only [not_lt]; linarith),
        if_neg (show ¬v < 13.2 by simp only [not_lt]; linarith),
        if_pos hv2]
    first | linarith | norm_num
  · rw [socSeg7 v hv hv2]
    rw [if_neg (show ¬v < 11.5 by simp only [not_lt]; linarith),
        if_neg (show ¬v < 11.8 by simp only [not_lt]; linarith),
        if_neg (show ¬v < 12.0 by simp only [not_lt]; linarith),
        if_neg (show ¬v < 12.4 by simp only [not_lt]; linarith),
        if_neg (show ¬v < 12.8 by simp only [not_lt]; linarith),
        if_neg (show ¬v < 13.2 by simp only [not_lt]; linarith),
        if_neg (show ¬v < 13.8 by simp only [not_lt]; linarith),
        if_pos hv2]
    first | linarith | norm_num
  · rw [socSeg8 v hv]
    rw [if_neg (show ¬v < 11.5 by simp only [not_lt]; linarith),
        if_neg (show ¬v < 11.8 by simp only [not_lt]; linarith),
        if_neg (show ¬v < 12.0 by simp only [not_lt]; linarith),
        if_neg (show ¬v < 12.4 by simp only [not_lt]; linarith),
        if_neg (show ¬v < 12.8 by simp only [not_lt]; linarith),
        if_neg (show ¬v < 13.2 by simp only [not_lt]; linarith),
        if_neg (show ¬v < 13.8 by simp only [not_lt]; linarith),
        if_neg (show ¬v < 14.4 by simp only [not_lt]; linarith)]
    first | linarith | norm_num

set_option maxHeartbeats 1000000 in
theorem getSOC_mono (v w : ℚ) (hvw : v ≤ w) :
    getSOCFromVoltage v ≤ getSOCFromVoltage w := by
  rcases socRegions v with hv | ⟨hv, hv2⟩ | ⟨hv, hv2⟩ | ⟨hv, hv2⟩ | ⟨hv, hv2⟩ | ⟨hv, hv2⟩ | ⟨hv, hv2⟩ | ⟨hv, hv2⟩ | hv <;>
    rcases socRegions w with hw | ⟨hw, hw2⟩ | ⟨hw, hw2⟩ | ⟨hw, hw2⟩ | ⟨hw, hw2⟩ | ⟨hw, hw2⟩ | ⟨hw, hw2⟩ | ⟨hw, hw2⟩ | hw
  · rw [socSeg0 v hv, socSeg0 w hw]
    all_goals first | linarith | (ring_nf; linarith)
  · rw [socSeg0 v hv, socSeg1 w hw hw2]
    all_goals first | linarith | (ring_nf; linarith)
  · rw [socSeg0 v hv, socSeg2 w hw hw2]
    all_goals first | linarith | (ring_nf; linarith)
  · rw [socSeg0 v hv, socSeg3 w hw hw2]
    all_goals first | linarith | (ring_nf; linarith)
  · rw [socSeg0 v hv, socSeg4 w hw hw2]
    all_goals first | linarith | (ring_nf; linarith)
  · rw [socSeg0 v hv, socSeg5 w hw hw2]
    all_goals first | linarith | (ring_nf; linarith)
  · rw [socSeg0 v hv, socSeg6 w hw hw2]
    all_goals first | linarith | (ring_nf; linarith)
  · rw [socSeg0 v hv, socSeg7 w hw hw2]
    all_goals first | linarith | (ring_nf; linarith)
  · rw [socSeg0 v hv, socSeg8 w hw]
    all_goals first | linarith | (ring_nf; linarith)
  · linarith
  · rw [socSeg1 v hv hv2, socSeg1 w hw hw2]
    all_goals first | linarith | (ring_nf; linarith)
  · rw [socSeg1 v hv hv2, socSeg2 w hw hw2]
    all_goals first | linarith | (ring_nf; linarith)
  · rw [socSeg1 v hv hv2, socSeg3 w hw hw2]
    all_goals first | linarith | (ring_nf; linarith)
  · rw [socSeg1 v hv hv2, socSeg4 w hw hw2]
    all_goals first | linarith | (ring_nf; linarith)
  · rw [socSeg1 v hv hv2, socSeg5 w hw hw2]
    all_goals first | linarith | (ring_nf; linarith)
  · rw [socSeg1 v hv hv2, socSeg6 w hw hw2]
    all_goals first | linarith | (ring_nf; linarith)
  · rw [socSeg1 v hv hv2, socSeg7 w hw hw2]
    all_goals first | linarith | (ring_nf; linarith)
  · rw [socSeg1 v hv hv2, socSeg8 w hw]
    all_goals first | linarith | (ring_nf; linarith)
  · linarith
  · linarith
  · rw [socSeg2 v hv hv2, socSeg2 w hw hw2]
    all_goals first | linarith | (ring_nf; linarith)
  · rw [socSeg2 v hv hv2, socSeg3 w hw hw2]
    all_goals first | linarith | (ring_nf; linarith)
  · rw [socSeg2 v hv hv2, socSeg4 w hw hw2]
    all_goals first | linarith | (ring_nf; linarith)
  · rw [socSeg2 v hv hv2, socSeg5 w hw hw2]
    all_goals first | linarith | (ring_nf; linarith)
  · rw [socSeg2 v hv hv2, socSeg6 w hw hw2]
    all_goals first | linarith | (ring_nf; linarith)
  · rw [socSeg2 v hv hv2, socSeg7 w hw hw2]
    all_goals first | linarith | (ring_nf; linarith)
  · rw [socSeg2 v hv hv2, socSeg8 w hw]
    all_goals first | linarith | (ring_nf; linarith)
  · linarith
  · linarith
  · linarith
  · rw [socSeg3 v hv hv2, socSeg3 w hw hw2]
    all_goals first | linarith | (ring_nf; linarith)
  · rw [socSeg3 v hv hv2, socSeg4 w hw hw2]
    all_goals first | linarith | (ring_nf; linarith)
  · rw [socSeg3 v hv hv2, socSeg5 w hw hw2]
    all_goals first | linarith | (ring_nf; linarith)
  · rw [socSeg3 v hv hv2, socSeg6 w hw hw2]
    all_goals first | linarith | (ring_nf; linarith)
  · rw [socSeg3 v hv hv2, socSeg7 w hw hw2]
    all_goals first | linarith | (ring_nf; linarith)
  · rw [socSeg3 v hv hv2, socSeg8 w hw]
    all_goals first | linarith | (ring_nf; linarith)
  · linarith
  · linarith
  · linarith
  · linarith
  · rw [socSeg4 v hv hv2, socSeg4 w hw hw2]
    all_goals first | linarith | (ring_nf; linarith)
  · rw [socSeg4 v hv hv2, socSeg5 w hw hw2]
    all_goals first | linarith | (ring_nf; linarith)
  · rw [socSeg4 v hv hv2, socSeg6 w hw hw2]
    all_goals first | linarith | (ring_nf; linarith)
  · rw [socSeg4 v hv hv2, socSeg7 w hw hw2]
    all_goals first | linarith | (ring_nf; linarith)
  · rw [socSeg4 v hv hv2, socSeg8 w hw]
    all_goals first | linarith | (ring_nf; linarith)
  · linarith
  · linarith
  · linarith
  · linarith
  · linarith
  · rw [socSeg5 v hv hv2, socSeg5 w hw hw2]
    all_goals first | linarith | (ring_nf; linarith)
  · rw [socSeg5 v hv hv2, socSeg6 w hw hw2]
    all_goals first | linarith | (ring_nf; linarith)
  · rw [socSeg5 v hv hv2, socSeg7 w hw hw2]
    all_goals first | linarith | (ring_nf; linarith)
  · rw [socSeg5 v hv hv2, socSeg8 w hw]
    all_goals first | linarith | (ring_nf; linarith)
  · linarith
  · linarith
  · linarith
  · linarith
  · linarith
  · linarith
  · rw [socSeg6 v hv hv2, socSeg6 w hw hw2]
    all_goals first | linarith | (ring_nf; linarith)
  · rw [socSeg6 v hv hv2, socSeg7 w hw hw2]
    all_goals first | linarith | (ring_nf; linarith)
  · rw [socSeg6 v hv hv2, socSeg8 w hw]
    all_goals first | linarith | (ring_nf; linarith)
  · linarith
  · linarith
  · linarith
  · linarith
  · linarith
  · linarith
  · linarith
  · rw [socSeg7 v hv hv2, socSeg7 w hw hw2]
    all_goals first | linarith | (ring_nf; linarith)
  · rw [socSeg7 v hv hv2, socSeg8 w hw]
    all_goals first | linarith | (ring_nf; linarith)
  · linarith
  · linarith
  · linarith
  · linarith
  · linarith
  · linarith
  · linarith
  · linarith
  · rw [socSeg8 v hv, socSeg8 w hw]
    all_goals first | linarith | (ring_nf; linarith)

/-- **C8**: the source's `getSOCFromVoltage` coincides with the
specification's piecewise-linear LUT on the breakpoints
`(11.5, 5) … (14.4, 100)`, hits every breakpoint exactly, returns `0` below
`11.5 V` and `100` at and above `14.4 V`, and is non-decreasing. -/
theorem soc_lut_matches_spec :
    (∀ v : ℚ, getSOCFromVoltage v = SocSpec.specSOC v) ∧
    (getSOCFromVoltage 11.5 = 5 ∧ getSOCFromVoltage 11.8 = 10 ∧
     getSOCFromVoltage 12.0 = 20 ∧ getSOCFromVoltage 12.4 = 40 ∧
     getSOCFromVoltage 12.8 = 60 ∧ getSOCFromVoltage 13.2 = 80 ∧
     getSOCFromVoltage 13.8 = 95 ∧ getSOCFromVoltage 14.4 = 100) ∧
    (∀ v : ℚ, v < 11.5 → getSOCFromVoltage v = 0) ∧
    (∀ v : ℚ, v ≥ 14.4 → getSOCFromVoltage v = 100) ∧
    (∀ v w : ℚ, v ≤ w → getSOCFromVoltage v ≤ getSOCFromVoltage w) := by
  refine ⟨getSOC_eq_spec,
    ⟨by with_unfolding_all decide, by with_unfolding_all decide,
     by with_unfolding_all decide, by with_unfolding_all decide,
     by with_unfolding_all decide, by with_unfolding_all decide,
     by with_unfolding_all decide, by with_unfolding_all decide⟩,
    ?_, ?_, getSOC_mono⟩
  · intro v hv
    unfold getSOCFromVoltage
    split_ifs <;> first | linarith | norm_num
  · intro v hv
    unfold getSOCFromVoltage
    rw [if_pos hv]
    norm_num

/-- **C8** witness: the spec agreement, the out-of-range returns and the
monotonicity instantiated at concrete voltages. -/
theorem soc_lut_matches_spec_witness :
    getSOCFromVoltage 13 = SocSpec.specSOC 13 ∧
    ((11.2 : ℚ) < 11.5 ∧ getSOCFromVoltage 11.2 = 0) ∧
    ((14.5 : ℚ) ≥ 14.4 ∧ getSOCFromVoltage 14.5 = 100) ∧
    ((12.6 : ℚ) ≤ 13.4 ∧ getSOCFromVoltage 12.6 ≤ getSOCFromVoltage 13.4) :=
  ⟨soc_lut_matches_spec.1 13,
   ⟨by norm_num, soc_lut_matches_spec.2.2.1 11.2 (by norm_num)⟩,
   ⟨by norm_num, soc_lut_matches_spec.2.2.2.1 14.5 (by norm_num)⟩,
   ⟨by norm_num, soc_lut_matches_spec.2.2.2.2 12.6 13.4 (by norm_num)⟩⟩

end Charger
